import Mathlib

/-!
# Particle self-shadowing: the host-side reference (`src/main.cpp`)

A shallow embedding of the serial reference path of the DirectCompute sample: `Smoothstep`,
`Overlap`, the aggregation loop of `TestResult` (`expected`) and its assertion loop, the
generation of the inputs in `CreateIOBuffers`, and the control flow of `main`.

Modelling conventions.

* The code is read in two arithmetics.
  - Exact arithmetic: `Smoothstep`, `Overlap`, `expected`, `TestResult` and `CreateIOBuffers`
    compute in an arbitrary linearly ordered field `α` (`ℝ` gives the real-number reading,
    `ℚ` an executable one), with the field's total division.  The statements on ranges and
    on the structure of the loops are proved there, and so are the statements that are
    scoped to exact real arithmetic.
  - The code's own arithmetic: `SmoothstepFloat`, `OverlapFloat`, `expectedFloat` and
    `TestResultFloat` compute in `float` (`F32`, IEEE 754 binary32; the cubic of `Smoothstep`
    is evaluated in `double`, `F64`): round to nearest, ties to even, signed zeros, gradual
    underflow, infinities and NaN, one rounding per operation (no fused multiply-add).  The
    claims on exact values are evaluated there on concrete inputs.
* `min`, `max` are the comparison macros of the platform headers (`F32.min`, `F32.max`; in
  exact arithmetic they are the lattice operations of the order) and `abs` is the absolute
  value on `float`.
* `sqrtf` comes from the C library.  In exact arithmetic it is a parameter of every
  definition that calls it, and no property of it is assumed; `sqrtQ` is a concrete instance
  on `ℚ` (exact on squares of rationals, `sqrtQ_mul_self`).  In `float` it is the correctly
  rounded square root (`F32.sqrtf`).
* `float dir[4]` is a function from `Fin 4`, `std::array<Particle, N>` a function from
  `Fin n` for an arbitrary length `n` (the program fixes `N = 32 * 32`).
* `assert(c)` continues when `c` holds and aborts the run otherwise; the abort carries the
  text of the asserted expression, which is what the C macro prints (with the file name and
  line, constants as well).  `assert` is the macro with assertions enabled, `assertBuild`
  the macro of a build with or without `NDEBUG`.
* `rand()` is a sequence `rand : Nat → Nat`, `rand k` being the value of call number `k`
  (counted from 0); the number of calls made so far is passed along.  `RAND_MAX` comes from
  the C library and is a parameter.
* `main` is modelled by the list of calls it makes and the way the run ends, as a function
  of the success or failure of each device operation (`DeviceResults`).
-/

namespace DirectCompute

/-! ## Data model -/

/-- Source: `struct Pos { float x, y, z; }`. -/
structure Pos (α : Type) where
  x : α
  y : α
  z : α

/-- Source: `struct Particle { Pos pos; float radius; float opacity; }`. -/
structure Particle (α : Type) where
  pos : Pos α
  radius : α
  opacity : α

variable {α : Type} [LinearOrderedField α]

/-! ## The overlap model -/

/-- Source: `float Smoothstep(float edge0, float edge1, float value)`, read in exact
arithmetic (`SmoothstepFloat` is the same function in the code's arithmetic). -/
def Smoothstep (edge0 edge1 value : α) : α :=
  let t := min (max ((value - edge0) / (edge1 - edge0)) 0) 1
  t * t * (3 - 2 * t)

/-- Source: `float Overlap(float dir[4], const Particle & caster, const Particle & receiver)`,
read in exact arithmetic (`OverlapFloat` is the same function in the code's arithmetic). -/
def Overlap (sqrtf : α → α) (dir : Fin 4 → α) (caster receiver : Particle α) : α :=
  let dReceiver := dir 0 * receiver.pos.x + dir 1 * receiver.pos.y + dir 2 * receiver.pos.z
  let dCaster := dir 0 * caster.pos.x + dir 1 * caster.pos.y + dir 2 * caster.pos.z
  if dCaster < dReceiver then 0
  else
    let posReceiever : Pos α :=
      ⟨receiver.pos.x - dir 0 * dReceiver, receiver.pos.y - dir 1 * dReceiver,
        receiver.pos.z - dir 2 * dReceiver⟩
    let posCaster : Pos α :=
      ⟨caster.pos.x - dir 0 * dCaster, caster.pos.y - dir 1 * dCaster,
        caster.pos.z - dir 2 * dCaster⟩
    let dist := sqrtf
      ((posReceiever.x - posCaster.x) * (posReceiever.x - posCaster.x) +
       (posReceiever.y - posCaster.y) * (posReceiever.y - posCaster.y) +
       (posReceiever.z - posCaster.z) * (posReceiever.z - posCaster.z))
    caster.opacity * min (caster.radius * caster.radius / (receiver.radius * receiver.radius)) 1
      * Smoothstep (receiver.radius + caster.radius) |receiver.radius - caster.radius| dist

/-! ### Names for the intermediate values of `Overlap`

The claims speak of the projections `dCaster`, `dReceiver` and of the lateral distance `dist`;
the definitions below are the expressions `Overlap` computes for them, so that statements can
refer to them (`Overlap_of_not_lt` ties them back to `Overlap`). -/

/-- The projection of a position onto `dir`: the expression of `dReceiver` and `dCaster`. -/
def dot (dir : Fin 4 → α) (p : Pos α) : α := dir 0 * p.x + dir 1 * p.y + dir 2 * p.z

/-- The component of a position perpendicular to `dir`: the expression of `posReceiever`
and `posCaster`. -/
def perp (dir : Fin 4 → α) (p : Pos α) : Pos α :=
  ⟨p.x - dir 0 * dot dir p, p.y - dir 1 * dot dir p, p.z - dir 2 * dot dir p⟩

/-- The value `dist` of `Overlap`: `sqrtf` of the squared distance between the two
perpendicular components. -/
def lateralDistance (sqrtf : α → α) (dir : Fin 4 → α) (caster receiver : Particle α) : α :=
  sqrtf
    (((perp dir receiver.pos).x - (perp dir caster.pos).x)
        * ((perp dir receiver.pos).x - (perp dir caster.pos).x) +
     ((perp dir receiver.pos).y - (perp dir caster.pos).y)
        * ((perp dir receiver.pos).y - (perp dir caster.pos).y) +
     ((perp dir receiver.pos).z - (perp dir caster.pos).z)
        * ((perp dir receiver.pos).z - (perp dir caster.pos).z))

/-- The first two factors of the value `Overlap` returns: the caster's opacity times the
capped ratio of silhouette areas. -/
def coverage (caster receiver : Particle α) : α :=
  caster.opacity * min (caster.radius * caster.radius / (receiver.radius * receiver.radius)) 1

/-- A direction of unit length (its 4th component is padding). -/
def unitDir (dir : Fin 4 → α) : Prop := dir 0 * dir 0 + dir 1 * dir 1 + dir 2 * dir 2 = 1

/-! ## The serial reference and the verifier (`TestResult`) -/

/-- The value `expected[i]` after the first loop nest of `TestResult`, read in exact
arithmetic (`expectedFloat` is the same loop in the code's arithmetic): starting from `1.0f`,
for `j = 0, 1, ..., n - 1` in order, multiply by `1.0f - Overlap(sunDir, particlesArr[j],
particlesArr[i])` when `i != j`. -/
def expected {n : Nat} (sqrtf : α → α) (sunDir : Fin 4 → α) (particlesArr : Fin n → Particle α)
    (i : Fin n) : α :=
  (List.finRange n).foldl
    (fun acc j =>
      if i ≠ j then acc * (1 - Overlap sqrtf sunDir (particlesArr j) (particlesArr i)) else acc)
    1

/-- The aggregation rule in the words of the specification: the product over all `j ≠ i` of
`1 - overlap(direction, particle[j], particle[i])`. -/
def shadowFactor {n : Nat} (sqrtf : α → α) (direction : Fin 4 → α)
    (particle : Fin n → Particle α) (i : Fin n) : α :=
  ∏ j ∈ Finset.univ.filter (fun j => j ≠ i),
    (1 - Overlap sqrtf direction (particle j) (particle i))

/-- The tolerance `const float diff{ 1e-5f }` of `TestResult`: the value of the `float`
nearest to `1e-5`, which is `2748779 / 2 ^ 38` (see `diffFloat_val`). -/
def diff : α := 2748779 / 274877906944

/-- The text the failed assertion of `TestResult` carries: the asserted expression. -/
def assertText : String := "abs(result[i] - expected[i]) < diff"

/-- The macro `assert(cond)` with assertions enabled: continue, or abort with the
expression's text. -/
def assert (cond : Prop) [Decidable cond] (text : String) : Except String Unit :=
  if cond then pure () else throw text

/-- Source: `void TestResult(float result[])`, read in exact arithmetic and with assertions
enabled: the second loop, over the values `expected[i]` the first loop nest produced.  `Except.ok ()` is a run that reaches the end of the function,
`Except.error text` a run aborted by the failed assertion. -/
def TestResult {n : Nat} (sqrtf : α → α) (sunDir : Fin 4 → α) (particlesArr : Fin n → Particle α)
    (result : Fin n → α) : Except String Unit :=
  (List.finRange n).forM fun i =>
    assert (|result i - expected sqrtf sunDir particlesArr i| < diff) assertText

/-! ## A concrete square root on `ℚ` -/

/-- Integer square root (rounded down), by structural recursion. -/
def isqrt : Nat → Nat
  | 0 => 0
  | n + 1 => if (isqrt n + 1) * (isqrt n + 1) ≤ n + 1 then isqrt n + 1 else isqrt n

/-- A square root on `ℚ` that is exact on squares of rationals. -/
def sqrtQ (q : ℚ) : ℚ := (isqrt q.num.toNat : ℚ) / (isqrt q.den : ℚ)

/-! ## Generation of the inputs (`CreateIOBuffers`) -/

/-- The macro `frand()`, `static_cast<float>(rand()) / static_cast<float>(RAND_MAX)`: `rand k`
is the value the `k`-th call of `rand()` returns and `k` the number of calls made so far; the
result is the value and the number of calls made after it. -/
def frand (RAND_MAX : Nat) (rand : Nat → Nat) (k : Nat) : α × Nat :=
  ((rand k : α) / (RAND_MAX : α), k + 1)

/-- The body of the loop `for (auto & particle : particlesArr)` of `CreateIOBuffers`: five
successive calls of `frand()`, with `sizeX = sizeY = sizeZ = 10.0f`. -/
def fillParticle (RAND_MAX : Nat) (rand : Nat → Nat) (k : Nat) : Particle α × Nat :=
  let x := frand RAND_MAX rand k
  let y := frand RAND_MAX rand x.2
  let z := frand RAND_MAX rand y.2
  let radius := frand RAND_MAX rand z.2
  let opacity := frand RAND_MAX rand radius.2
  (⟨⟨(x.1 - 0.5) * 10, (y.1 - 0.5) * 10, (z.1 - 0.5) * 10⟩, radius.1, opacity.1⟩, opacity.2)

/-- The loop `for (auto & particle : particlesArr)` over an array of `n` particles, started
after `k` calls of `rand()`: the particles in index order. -/
def fillParticles (RAND_MAX : Nat) (rand : Nat → Nat) : Nat → Nat → List (Particle α)
  | 0, _ => []
  | n + 1, k =>
    let step : Particle α × Nat := fillParticle RAND_MAX rand k
    step.1 :: fillParticles RAND_MAX rand n step.2

/-- The host data `CreateIOBuffers` leaves in the globals `sunDir` and `particlesArr`. -/
structure IOBuffers (α : Type) where
  sunDir : Fin 4 → α
  particlesArr : List (Particle α)

/-- Source: `void CreateIOBuffers()`, the host side: the light direction and the particle
population of `n` particles (the program has `n = THREAD_X * THREAD_Y`).  Its four device
calls are part of `main` below. -/
def CreateIOBuffers (sqrtf : α → α) (RAND_MAX : Nat) (rand : Nat → Nat) (n : Nat) : IOBuffers α :=
  let revLen := 1 / sqrtf (0.5 * 0.5 + 0.2 * 0.2 + 0.3 * 0.3)
  { sunDir := ![0.5 * revLen, 0.2 * revLen, 0.3 * revLen, 0]
    particlesArr := fillParticles RAND_MAX rand n 0 }

/-- The receivers of the calls `Overlap(sunDir, particlesArr[j], particlesArr[i])` the loop
nest of `TestResult` makes: for every `i`, one occurrence of `particlesArr[i]` for every
`j` with `i != j`. -/
def receivers (particlesArr : List (Particle α)) : List (Particle α) :=
  (List.finRange particlesArr.length).flatMap fun i =>
    ((List.finRange particlesArr.length).filter fun j => i ≠ j).map fun _ => particlesArr.get i


/-! ## The run driver (`main`) -/

/-- The results of the device operations of one run: `true` when the `HRESULT` an operation
returns is a success code, `false` when it is a failure code.  `createDebugBuffer` is the
`CreateBuffer` of the staging copy in `CreateAndCopyToDebugBuf`; `assertionsHold` tells
whether every assertion of `TestResult` holds on the data read back. -/
structure DeviceResults where
  createComputeDevice : Bool
  createComputeShader : Bool
  createParticlesBuffer : Bool
  createShadowBuffer : Bool
  createBufferSRV : Bool
  createBufferUAV : Bool
  createConstBuffer : Bool
  createDebugBuffer : Bool
  assertionsHold : Bool

/-- The calls `main` makes, directly or through `CreateIOBuffers` and `SetUniforms`. -/
inductive Call
  | TestOverlapHost
  | CreateComputeDevice
  | CreateComputeShader
  | CreateStructuredBufferParticles
  | CreateStructuredBufferShadow
  | CreateBufferSRV
  | CreateBufferUAV
  | CreateConstBuffer
  | RunComputeShader
  | CreateAndCopyToDebugBuf
  | Map
  | TestResult
  | Unmap
  deriving DecidableEq

/-- How a run of `main` ends: `code c` is `return c`, `aborted` a failed assertion,
`undefined` the use of a pointer that is null or was never set. -/
inductive Exit
  | code (c : Int)
  | aborted
  | undefined
  deriving DecidableEq

/-- Source: `void CreateIOBuffers()`, the device side: the calls made, and whether the
function returns.  Every `HRESULT` is discarded.  A buffer whose creation failed is a null
pointer, and `CreateBufferSRV` and `CreateBufferUAV` start with `pBuffer->GetDesc`. -/
def CreateIOBuffersCalls (r : DeviceResults) : List Call × Bool :=
  if !r.createParticlesBuffer then
    ([Call.CreateStructuredBufferParticles, Call.CreateStructuredBufferShadow,
      Call.CreateBufferSRV], false)
  else if !r.createShadowBuffer then
    ([Call.CreateStructuredBufferParticles, Call.CreateStructuredBufferShadow,
      Call.CreateBufferSRV, Call.CreateBufferUAV], false)
  else
    ([Call.CreateStructuredBufferParticles, Call.CreateStructuredBufferShadow,
      Call.CreateBufferSRV, Call.CreateBufferUAV], true)

/-- Source: `void SetUniforms()`: one call of `CreateConstBuffer`, its `HRESULT` discarded. -/
def SetUniformsCalls (_r : DeviceResults) : List Call := [Call.CreateConstBuffer]

/-- Source: `int main()`: the calls made in order and the way the run ends.  Only the results
of `CreateComputeDevice` and `CreateComputeShader` are tested (`return 1`).  With a null
staging buffer `Map` leaves `MappedResource.pData` unset and `TestResult` reads through it. -/
def main (r : DeviceResults) : List Call × Exit :=
  if !r.createComputeDevice then
    ([Call.TestOverlapHost, Call.CreateComputeDevice], Exit.code 1)
  else if !r.createComputeShader then
    ([Call.TestOverlapHost, Call.CreateComputeDevice, Call.CreateComputeShader], Exit.code 1)
  else
    let start := [Call.TestOverlapHost, Call.CreateComputeDevice, Call.CreateComputeShader]
    let io := CreateIOBuffersCalls r
    if !io.2 then (start ++ io.1, Exit.undefined)
    else
      let readback := start ++ io.1 ++ SetUniformsCalls r ++
        [Call.RunComputeShader, Call.CreateAndCopyToDebugBuf, Call.Map, Call.TestResult]
      if !r.createDebugBuffer then (readback, Exit.undefined)
      else if !r.assertionsHold then (readback, Exit.aborted)
      else (readback ++ [Call.Unmap], Exit.code 0)

/-! ## Moving a caster along the light direction -/

/-- The caster moved by `s * dir`: same radius and opacity. -/
def moveAlong (dir : Fin 4 → α) (s : α) (caster : Particle α) : Particle α :=
  { caster with
    pos := ⟨caster.pos.x + s * dir 0, caster.pos.y + s * dir 1, caster.pos.z + s * dir 2⟩ }

/-! ## Binary floating point

The code computes in `float` (IEEE 754 binary32), and the cubic of `Smoothstep` in `double`
(binary64).  The definitions of this section model those formats with exact rationals:
round to nearest, ties to even, signed zeros, gradual underflow, infinities and NaN. -/

/-- A floating-point datum: a finite value `(-1)^neg * mag` with `mag ≥ 0` (a zero keeps
its sign), an infinity, or a NaN. -/
inductive Flt
  | fin (neg : Bool) (mag : ℚ)
  | inf (neg : Bool)
  | nan
  deriving DecidableEq

/-- A binary format: number of significand bits, smallest and largest exponent. -/
structure Format where
  prec : Nat
  emin : Int
  emax : Int

/-- The format of `float`. -/
def binary32 : Format := ⟨24, -126, 127⟩

/-- The format of `double`. -/
def binary64 : Format := ⟨53, -1022, 1023⟩

/-- The rational `2 ^ e`. -/
def pow2 (e : Int) : ℚ :=
  if 0 ≤ e then ((2 ^ e.toNat : Nat) : ℚ) else 1 / ((2 ^ (-e).toNat : Nat) : ℚ)

/-- Number of binary digits of `n`, with fuel. -/
def bitLength : Nat → Nat → Nat
  | 0, _ => 0
  | fuel + 1, n => if n = 0 then 0 else bitLength fuel (n / 2) + 1

/-- The exponent `e` with `2 ^ e ≤ q < 2 ^ (e + 1)`, for `q > 0`. -/
def ilog2 (q : ℚ) : Int :=
  let e : Int := (bitLength q.num.natAbs q.num.natAbs : Int) - (bitLength q.den q.den : Int)
  if pow2 e ≤ q then e else e - 1

/-- The integer nearest to `x ≥ 0`, ties to the even one. -/
def roundHalfEven (x : ℚ) : Nat :=
  let f := x.num.natAbs / x.den
  let r := 2 * (x.num.natAbs % x.den)
  if r < x.den then f else if x.den < r then f + 1 else if f % 2 = 0 then f else f + 1

/-- The magnitude `q > 0` rounded to the format, `none` on overflow. -/
def roundMag (fmt : Format) (q : ℚ) : Option ℚ :=
  let e := max (ilog2 q) fmt.emin
  let ulp := pow2 (e - ((fmt.prec : Int) - 1))
  let r := (roundHalfEven (q / ulp) : ℚ) * ulp
  if pow2 (fmt.emax + 1) ≤ r then none else some r

/-- The rational `q` rounded to the format; `zeroNeg` is the sign given to an exact zero. -/
def Flt.round (fmt : Format) (q : ℚ) (zeroNeg : Bool) : Flt :=
  if q = 0 then Flt.fin zeroNeg 0
  else
    match roundMag fmt |q| with
    | none => Flt.inf (decide (q < 0))
    | some m => Flt.fin (decide (q < 0)) m

/-- The value of a finite datum (0 for the others). -/
def Flt.toRat : Flt → ℚ
  | Flt.fin neg mag => if neg then -mag else mag
  | _ => 0

/-- The sign bit of a datum that is not a NaN. -/
def Flt.sign : Flt → Bool
  | Flt.fin neg _ => neg
  | Flt.inf neg => neg
  | Flt.nan => false

/-- Negation. -/
def Flt.neg : Flt → Flt
  | Flt.fin neg mag => Flt.fin (!neg) mag
  | Flt.inf neg => Flt.inf (!neg)
  | Flt.nan => Flt.nan

/-- Absolute value (`fabs`). -/
def Flt.abs : Flt → Flt
  | Flt.fin _ mag => Flt.fin false mag
  | Flt.inf _ => Flt.inf false
  | Flt.nan => Flt.nan

/-- Addition in the format. -/
def Flt.add (fmt : Format) : Flt → Flt → Flt
  | Flt.nan, _ => Flt.nan
  | _, Flt.nan => Flt.nan
  | Flt.inf s, Flt.inf s' => if s = s' then Flt.inf s else Flt.nan
  | Flt.inf s, Flt.fin _ _ => Flt.inf s
  | Flt.fin _ _, Flt.inf s => Flt.inf s
  | Flt.fin s m, Flt.fin s' m' =>
    Flt.round fmt ((Flt.fin s m).toRat + (Flt.fin s' m').toRat) (s && s')

/-- Subtraction in the format. -/
def Flt.sub (fmt : Format) (x y : Flt) : Flt := Flt.add fmt x y.neg

/-- Multiplication in the format. -/
def Flt.mul (fmt : Format) : Flt → Flt → Flt
  | Flt.nan, _ => Flt.nan
  | _, Flt.nan => Flt.nan
  | Flt.inf s, Flt.inf s' => Flt.inf (xor s s')
  | Flt.inf s, Flt.fin s' m => if m = 0 then Flt.nan else Flt.inf (xor s s')
  | Flt.fin s m, Flt.inf s' => if m = 0 then Flt.nan else Flt.inf (xor s s')
  | Flt.fin s m, Flt.fin s' m' =>
    Flt.round fmt ((Flt.fin s m).toRat * (Flt.fin s' m').toRat) (xor s s')

/-- Division in the format. -/
def Flt.div (fmt : Format) : Flt → Flt → Flt
  | Flt.nan, _ => Flt.nan
  | _, Flt.nan => Flt.nan
  | Flt.inf _, Flt.inf _ => Flt.nan
  | Flt.inf s, Flt.fin s' _ => Flt.inf (xor s s')
  | Flt.fin s _, Flt.inf s' => Flt.fin (xor s s') 0
  | Flt.fin s m, Flt.fin s' m' =>
    if m' = 0 then (if m = 0 then Flt.nan else Flt.inf (xor s s'))
    else Flt.round fmt ((Flt.fin s m).toRat / (Flt.fin s' m').toRat) (xor s s')

/-- Integer square root (rounded down), one binary digit at a time. -/
def isqrtBits : Nat → Nat → Nat → Nat
  | 0, _, r => r
  | k + 1, n, r => if (r + 2 ^ k) * (r + 2 ^ k) ≤ n then isqrtBits k n (r + 2 ^ k) else isqrtBits k n r

/-- The square root of `q > 0`, correctly rounded to the format. -/
def sqrtMag (fmt : Format) (q : ℚ) : ℚ :=
  let e := ilog2 q / 2
  let ulp := pow2 (e - ((fmt.prec : Int) - 1))
  let x := q / (ulp * ulp)
  let fl := x.num.natAbs / x.den
  let n := isqrtBits (bitLength fl fl) fl 0
  let half : ℚ := ((n : ℚ) + 1 / 2) * ((n : ℚ) + 1 / 2)
  let m := if x < half then n else if half < x then n + 1 else if n % 2 = 0 then n else n + 1
  (m : ℚ) * ulp

/-- Square root in the format. -/
def Flt.sqrt (fmt : Format) : Flt → Flt
  | Flt.nan => Flt.nan
  | Flt.inf neg => if neg then Flt.nan else Flt.inf false
  | Flt.fin neg mag =>
    if mag = 0 then Flt.fin neg 0 else if neg then Flt.nan else Flt.fin false (sqrtMag fmt mag)

/-- The comparison `x < y`: false when an operand is a NaN, and `-0 = +0`. -/
def Flt.lt : Flt → Flt → Bool
  | Flt.nan, _ => false
  | _, Flt.nan => false
  | Flt.inf s, Flt.inf s' => s && !s'
  | Flt.inf s, Flt.fin _ _ => s
  | Flt.fin _ _, Flt.inf s => !s
  | Flt.fin s m, Flt.fin s' m' => decide ((Flt.fin s m).toRat < (Flt.fin s' m').toRat)

/-- Conversion to the format (a finite value is rounded, its sign kept). -/
def Flt.convert (fmt : Format) : Flt → Flt
  | Flt.fin neg mag => Flt.round fmt (Flt.fin neg mag).toRat neg
  | x => x

/-- A value of type `float`. -/
structure F32 where
  val : Flt
  deriving DecidableEq

/-- A value of type `double`. -/
structure F64 where
  val : Flt
  deriving DecidableEq

instance : Add F32 := ⟨fun a b => ⟨Flt.add binary32 a.val b.val⟩⟩

instance : Sub F32 := ⟨fun a b => ⟨Flt.sub binary32 a.val b.val⟩⟩

instance : Mul F32 := ⟨fun a b => ⟨Flt.mul binary32 a.val b.val⟩⟩

instance : Div F32 := ⟨fun a b => ⟨Flt.div binary32 a.val b.val⟩⟩

instance : LT F32 := ⟨fun a b => Flt.lt a.val b.val = true⟩

instance (a b : F32) : Decidable (a < b) := inferInstanceAs (Decidable (Flt.lt a.val b.val = true))

instance (n : Nat) : OfNat F32 n := ⟨⟨Flt.round binary32 (n : ℚ) false⟩⟩

instance : Sub F64 := ⟨fun a b => ⟨Flt.sub binary64 a.val b.val⟩⟩

instance : Mul F64 := ⟨fun a b => ⟨Flt.mul binary64 a.val b.val⟩⟩

instance (n : Nat) : OfNat F64 n := ⟨⟨Flt.round binary64 (n : ℚ) false⟩⟩

/-- The `float` nearest to a rational (a literal, or an input given by its value). -/
def F32.ofRat (q : ℚ) : F32 := ⟨Flt.round binary32 q false⟩

/-- The implicit conversion of a `float` to `double` (exact). -/
def F32.toF64 (a : F32) : F64 := ⟨a.val⟩

/-- The conversion of a `double` to `float`. -/
def F64.toF32 (a : F64) : F32 := ⟨Flt.convert binary32 a.val⟩

/-- The library function `sqrtf`, correctly rounded. -/
def F32.sqrtf (a : F32) : F32 := ⟨Flt.sqrt binary32 a.val⟩

/-- The function `abs` on `float`. -/
def F32.abs (a : F32) : F32 := ⟨a.val.abs⟩

/-- The macro `max(a,b)`, `(((a) > (b)) ? (a) : (b))`. -/
def F32.max (a b : F32) : F32 := if a > b then a else b

/-- The macro `min(a,b)`, `(((a) < (b)) ? (a) : (b))`. -/
def F32.min (a b : F32) : F32 := if a < b then a else b

/-- Source: `float Smoothstep(float edge0, float edge1, float value)` in the code's
arithmetic: `t` and `t * t` are `float`, the factor `3.0 - 2.0 * t` and the product are
`double`, and the returned value is converted to `float`. -/
def SmoothstepFloat (edge0 edge1 value : F32) : F32 :=
  let t := F32.min (F32.max ((value - edge0) / (edge1 - edge0)) 0) 1
  F64.toF32 ((t * t).toF64 * (3 - 2 * t.toF64))

/-- Source: `float Overlap(float dir[4], const Particle & caster, const Particle & receiver)`
in the code's arithmetic. -/
def OverlapFloat (dir : Fin 4 → F32) (caster receiver : Particle F32) : F32 :=
  let dReceiver := dir 0 * receiver.pos.x + dir 1 * receiver.pos.y + dir 2 * receiver.pos.z
  let dCaster := dir 0 * caster.pos.x + dir 1 * caster.pos.y + dir 2 * caster.pos.z
  if dCaster < dReceiver then 0
  else
    let posReceiever : Pos F32 :=
      ⟨receiver.pos.x - dir 0 * dReceiver, receiver.pos.y - dir 1 * dReceiver,
        receiver.pos.z - dir 2 * dReceiver⟩
    let posCaster : Pos F32 :=
      ⟨caster.pos.x - dir 0 * dCaster, caster.pos.y - dir 1 * dCaster,
        caster.pos.z - dir 2 * dCaster⟩
    let dist := F32.sqrtf
      ((posReceiever.x - posCaster.x) * (posReceiever.x - posCaster.x) +
       (posReceiever.y - posCaster.y) * (posReceiever.y - posCaster.y) +
       (posReceiever.z - posCaster.z) * (posReceiever.z - posCaster.z))
    caster.opacity *
        F32.min (caster.radius * caster.radius / (receiver.radius * receiver.radius)) 1
      * SmoothstepFloat (receiver.radius + caster.radius)
          (F32.abs (receiver.radius - caster.radius)) dist

/-- The values `expected[i]` of `TestResult` in the code's arithmetic. -/
def expectedFloat {n : Nat} (sunDir : Fin 4 → F32) (particlesArr : Fin n → Particle F32)
    (i : Fin n) : F32 :=
  (List.finRange n).foldl
    (fun acc j =>
      if i ≠ j then acc * (1 - OverlapFloat sunDir (particlesArr j) (particlesArr i)) else acc)
    1

/-- The tolerance `const float diff{ 1e-5f }` of `TestResult`: the `float` nearest to
`1e-5`. -/
def diffFloat : F32 := F32.ofRat (1 / 100000)

/-- The macro `assert(cond)` of a given build: compiled out when `NDEBUG` is defined. -/
def assertBuild (NDEBUG : Bool) (cond : Prop) [Decidable cond] (text : String) :
    Except String Unit :=
  if NDEBUG then pure () else assert cond text

/-- Source: `void TestResult(float result[])` in the code's arithmetic, for a build with or
without `NDEBUG`. -/
def TestResultFloat {n : Nat} (NDEBUG : Bool) (sunDir : Fin 4 → F32)
    (particlesArr : Fin n → Particle F32) (result : Fin n → F32) : Except String Unit :=
  (List.finRange n).forM fun i =>
    assertBuild NDEBUG (F32.abs (result i - expectedFloat sunDir particlesArr i) < diffFloat)
      assertText

/-! ### Inputs given by their values -/

/-- A rational that is the value of a `float`: rounding leaves it unchanged. -/
def isFloat (q : ℚ) : Prop := (F32.ofRat q).val.toRat = q

instance (q : ℚ) : Decidable (isFloat q) := inferInstanceAs (Decidable (_ = _))

/-- Every component of the particle is the value of a `float`. -/
def Particle.isFloat (p : Particle ℚ) : Prop :=
  DirectCompute.isFloat p.pos.x ∧ DirectCompute.isFloat p.pos.y ∧
    DirectCompute.isFloat p.pos.z ∧ DirectCompute.isFloat p.radius ∧
    DirectCompute.isFloat p.opacity

instance (p : Particle ℚ) : Decidable p.isFloat :=
  inferInstanceAs (Decidable (_ ∧ _ ∧ _ ∧ _ ∧ _))

/-- The particle with the given values as a particle of the code. -/
def Particle.toFloat (p : Particle ℚ) : Particle F32 :=
  ⟨⟨F32.ofRat p.pos.x, F32.ofRat p.pos.y, F32.ofRat p.pos.z⟩, F32.ofRat p.radius,
    F32.ofRat p.opacity⟩

/-- The direction with the given values as a direction of the code. -/
def dirToFloat (dir : Fin 4 → ℚ) : Fin 4 → F32 := fun i => F32.ofRat (dir i)

/-! ## Lemmas on `Smoothstep` and `Overlap` -/

theorem Overlap_of_lt (sqrtf : α → α) (dir : Fin 4 → α) (caster receiver : Particle α)
    (h : dot dir caster.pos < dot dir receiver.pos) : Overlap sqrtf dir caster receiver = 0 := by
  unfold dot at h
  simp [Overlap, h]

theorem Overlap_of_not_lt (sqrtf : α → α) (dir : Fin 4 → α) (caster receiver : Particle α)
    (h : ¬ dot dir caster.pos < dot dir receiver.pos) :
    Overlap sqrtf dir caster receiver =
      coverage caster receiver *
        Smoothstep (receiver.radius + caster.radius) |receiver.radius - caster.radius|
          (lateralDistance sqrtf dir caster receiver) := by
  unfold dot at h
  simp only [Overlap, if_neg h, coverage, lateralDistance, perp, dot]

/-- The value of `Overlap` in terms of the named intermediate values, on every input. -/
theorem Overlap_eq (sqrtf : α → α) (dir : Fin 4 → α) (caster receiver : Particle α) :
    Overlap sqrtf dir caster receiver =
      if dot dir caster.pos < dot dir receiver.pos then 0
      else coverage caster receiver *
        Smoothstep (receiver.radius + caster.radius) |receiver.radius - caster.radius|
          (lateralDistance sqrtf dir caster receiver) := by
  split_ifs with h
  · exact Overlap_of_lt _ _ _ _ h
  · exact Overlap_of_not_lt _ _ _ _ h

theorem Smoothstep_nonneg (e0 e1 v : α) : 0 ≤ Smoothstep e0 e1 v := by
  unfold Smoothstep
  have h0 : (0:α) ≤ min (max ((v - e0) / (e1 - e0)) 0) 1 := le_min (le_max_right _ _) zero_le_one
  have h1 : min (max ((v - e0) / (e1 - e0)) 0) 1 ≤ (1:α) := min_le_right _ _
  generalize min (max ((v - e0) / (e1 - e0)) 0) 1 = t at h0 h1
  show 0 ≤ t * t * (3 - 2 * t)
  have : 0 ≤ 3 - 2 * t := by linarith
  positivity

theorem Smoothstep_le_one (e0 e1 v : α) : Smoothstep e0 e1 v ≤ 1 := by
  unfold Smoothstep
  have h0 : (0:α) ≤ min (max ((v - e0) / (e1 - e0)) 0) 1 := le_min (le_max_right _ _) zero_le_one
  have h1 : min (max ((v - e0) / (e1 - e0)) 0) 1 ≤ (1:α) := min_le_right _ _
  generalize min (max ((v - e0) / (e1 - e0)) 0) 1 = t at h0 h1
  show t * t * (3 - 2 * t) ≤ 1
  nlinarith [mul_nonneg (mul_nonneg (sub_nonneg.2 h1) (sub_nonneg.2 h1))
    (by linarith : (0:α) ≤ 1 + 2 * t)]

theorem Smoothstep_eq_one (e0 e1 v : α) (he : e1 < e0) (hv : v ≤ e1) :
    Smoothstep e0 e1 v = 1 := by
  have hq : 1 ≤ (v - e0) / (e1 - e0) := by
    rw [one_le_div_of_neg (by linarith)]; linarith
  have ht : min (max ((v - e0) / (e1 - e0)) 0) 1 = 1 := by
    rw [max_eq_left (by linarith), min_eq_right hq]
  simp only [Smoothstep, ht]; norm_num

theorem Smoothstep_eq_zero (e0 e1 v : α) (he : e1 < e0) (hv : e0 ≤ v) :
    Smoothstep e0 e1 v = 0 := by
  have hq : (v - e0) / (e1 - e0) ≤ 0 :=
    div_nonpos_of_nonneg_of_nonpos (by linarith) (by linarith)
  have ht : min (max ((v - e0) / (e1 - e0)) 0) 1 = 0 := by
    rw [max_eq_right hq, min_eq_left zero_le_one]
  simp only [Smoothstep, ht]; norm_num

/-- With both radii positive the two edges of the falloff are distinct and ordered. -/
theorem edges_lt (rr rc : α) (hr : 0 < rr) (hc : 0 < rc) : |rr - rc| < rr + rc := by
  rw [abs_lt]; constructor <;> linarith

theorem coverage_nonneg (caster receiver : Particle α) (h : 0 ≤ caster.opacity) :
    0 ≤ coverage caster receiver := by
  unfold coverage
  have : 0 ≤ caster.radius * caster.radius / (receiver.radius * receiver.radius) :=
    div_nonneg (mul_self_nonneg _) (mul_self_nonneg _)
  exact mul_nonneg h (le_min this zero_le_one)

theorem coverage_le_one (caster receiver : Particle α) (h : caster.opacity ≤ 1) :
    coverage caster receiver ≤ 1 := by
  unfold coverage
  have : 0 ≤ caster.radius * caster.radius / (receiver.radius * receiver.radius) :=
    div_nonneg (mul_self_nonneg _) (mul_self_nonneg _)
  exact mul_le_one₀ h (le_min this zero_le_one) (min_le_right _ _)

theorem Overlap_nonneg (sqrtf : α → α) (dir : Fin 4 → α) (caster receiver : Particle α)
    (h0 : 0 ≤ caster.opacity) : 0 ≤ Overlap sqrtf dir caster receiver := by
  by_cases h : dot dir caster.pos < dot dir receiver.pos
  · rw [Overlap_of_lt _ _ _ _ h]
  · rw [Overlap_of_not_lt _ _ _ _ h]
    exact mul_nonneg (coverage_nonneg _ _ h0) (Smoothstep_nonneg _ _ _)

theorem Overlap_le_one (sqrtf : α → α) (dir : Fin 4 → α) (caster receiver : Particle α)
    (h1 : caster.opacity ≤ 1) : Overlap sqrtf dir caster receiver ≤ 1 := by
  by_cases h : dot dir caster.pos < dot dir receiver.pos
  · rw [Overlap_of_lt _ _ _ _ h]; exact zero_le_one
  · rw [Overlap_of_not_lt _ _ _ _ h]
    exact mul_le_one₀ (coverage_le_one _ _ h1) (Smoothstep_nonneg _ _ _)
      (Smoothstep_le_one _ _ _)

theorem foldl_mul_ite {ι : Type} [DecidableEq ι] (l : List ι) (f : ι → α) (i : ι) (a : α) :
    l.foldl (fun acc j => if i ≠ j then acc * f j else acc) a =
      a * (l.map (fun j => if j ≠ i then f j else 1)).prod := by
  induction l generalizing a with
  | nil => simp
  | cons b l ih =>
    simp only [List.foldl_cons, List.map_cons, List.prod_cons, ih]
    by_cases h : i = b
    · subst h; simp
    · have h2 : b ≠ i := fun e => h e.symm
      simp [h, h2, mul_assoc]

theorem expected_eq_shadowFactor {n : Nat} (sqrtf : α → α) (sunDir : Fin 4 → α)
    (particlesArr : Fin n → Particle α) (i : Fin n) :
    expected sqrtf sunDir particlesArr i = shadowFactor sqrtf sunDir particlesArr i := by
  unfold expected shadowFactor
  rw [foldl_mul_ite, one_mul, Finset.prod_filter, Fin.prod_univ_def]

theorem assert_pos (cond : Prop) [Decidable cond] (text : String) (h : cond) :
    assert cond text = Except.ok () := by
  simp [assert, h, pure, Except.pure]

theorem assert_neg (cond : Prop) [Decidable cond] (text : String) (h : ¬ cond) :
    assert cond text = Except.error text := by
  simp [assert, h, throw, throwThe, MonadExceptOf.throw]

theorem forM_assert_ok {ι : Type} (l : List ι) (c : ι → Prop) [DecidablePred c]
    (text : String) :
    (l.forM fun i => assert (c i) text) = Except.ok () ↔ ∀ i ∈ l, c i := by
  induction l with
  | nil => simp [pure, Except.pure]
  | cons b l ih =>
    rw [List.forM]
    by_cases h : c b
    · rw [assert_pos _ _ h]
      simp only [bind, Except.bind, List.mem_cons, forall_eq_or_imp, h, true_and]
      exact ih
    · rw [assert_neg _ _ h]
      simp [bind, Except.bind, h]

theorem forM_assert_error {ι : Type} (l : List ι) (c : ι → Prop) [DecidablePred c]
    (text : String) (h : ∃ i ∈ l, ¬ c i) :
    (l.forM fun i => assert (c i) text) = Except.error text := by
  induction l with
  | nil => simp at h
  | cons b l ih =>
    rw [List.forM]
    by_cases hb : c b
    · have : ∃ i ∈ l, ¬ c i := by
        obtain ⟨i, hi, hci⟩ := h
        rcases List.mem_cons.1 hi with rfl | hi
        · exact absurd hb hci
        · exact ⟨i, hi, hci⟩
      rw [assert_pos _ _ hb]
      simp only [bind, Except.bind]
      exact ih this
    · rw [assert_neg _ _ hb]
      simp [bind, Except.bind]

/-! ## Values of the concrete square root -/

theorem isqrt_one : isqrt 1 = 1 := by decide

theorem sqrtQ_zero : sqrtQ 0 = 0 := by simp [sqrtQ, isqrt]

theorem sqrtQ_one : sqrtQ 1 = 1 := by simp [sqrtQ, isqrt_one]

/-- C1: a caster whose projection onto the direction is strictly smaller than the
receiver's casts no shadow: `Overlap` returns exactly 0, whatever the radii and opacities. -/
theorem Overlap_caster_behind (sqrtf : α → α) (dir : Fin 4 → α) (caster receiver : Particle α)
    (h : dot dir caster.pos < dot dir receiver.pos) :
    Overlap sqrtf dir caster receiver = 0 :=
  Overlap_of_lt sqrtf dir caster receiver h

/-- Instance of C1: direction `(1,0,0)`, caster at the origin, receiver at `(2,0,0)`. -/
theorem Overlap_caster_behind_witness :
    dot ![(1 : ℚ), 0, 0, 0] (⟨⟨0, 0, 0⟩, 1, 1⟩ : Particle ℚ).pos
        < dot ![(1 : ℚ), 0, 0, 0] (⟨⟨2, 0, 0⟩, 1 / 2, 1 / 2⟩ : Particle ℚ).pos ∧
      Overlap sqrtQ ![(1 : ℚ), 0, 0, 0] ⟨⟨0, 0, 0⟩, 1, 1⟩ ⟨⟨2, 0, 0⟩, 1 / 2, 1 / 2⟩ = 0 :=
  ⟨by norm_num [dot], Overlap_caster_behind _ _ _ _ (by norm_num [dot])⟩

/-- C2: for every population, direction and receiver index `i`, the serial shadow factor
`expected[i]` computed by `TestResult` is the product, starting from 1, over all indices
`j ≠ i` of `1 - Overlap(dir, particle[j], particle[i])`; the term `j = i` is not part of
it, and a population of a single particle yields exactly 1. -/
theorem expected_eq_product_over_others :
    (∀ (n : Nat) (sqrtf : α → α) (sunDir : Fin 4 → α) (particlesArr : Fin n → Particle α)
        (i : Fin n),
        expected sqrtf sunDir particlesArr i = shadowFactor sqrtf sunDir particlesArr i ∧
        expected sqrtf sunDir particlesArr i =
          ∏ j ∈ Finset.univ.erase i,
            (1 - Overlap sqrtf sunDir (particlesArr j) (particlesArr i))) ∧
    (∀ (sqrtf : α → α) (sunDir : Fin 4 → α) (particlesArr : Fin 1 → Particle α) (i : Fin 1),
        expected sqrtf sunDir particlesArr i = 1) := by
  refine ⟨fun n sqrtf sunDir particlesArr i => ⟨expected_eq_shadowFactor _ _ _ _, ?_⟩, ?_⟩
  · rw [expected_eq_shadowFactor, shadowFactor]
    congr 1
    ext j
    simp
  · intro sqrtf sunDir particlesArr i
    rw [expected_eq_shadowFactor, shadowFactor]
    apply Finset.prod_eq_one
    intro j hj
    exact absurd (Subsingleton.elim j i) (Finset.mem_filter.1 hj).2

/-- C3: on a valid input (unit direction, caster with radius `≥ 0` and opacity in `[0,1]`,
receiver with radius `> 0`) the value of `Overlap` lies in `[0,1]`. -/
theorem Overlap_mem_unit_interval (sqrtf : α → α) (dir : Fin 4 → α)
    (caster receiver : Particle α) (_hdir : unitDir dir) (_hc : 0 ≤ caster.radius)
    (ho0 : 0 ≤ caster.opacity) (ho1 : caster.opacity ≤ 1) (_hr : 0 < receiver.radius) :
    0 ≤ Overlap sqrtf dir caster receiver ∧ Overlap sqrtf dir caster receiver ≤ 1 :=
  ⟨Overlap_nonneg sqrtf dir caster receiver ho0, Overlap_le_one sqrtf dir caster receiver ho1⟩

/-- Instance of C3: the `Part intersection` input of `TestOverlapHost`, where `Overlap`
is `1/4`. -/
theorem Overlap_mem_unit_interval_witness :
    Overlap sqrtQ ![(1 : ℚ), 0, 0, 0] ⟨⟨2, 1, 0⟩, 1, 1 / 2⟩ ⟨⟨0, 0, 0⟩, 1, 1⟩ = 1 / 4 ∧
    0 ≤ Overlap sqrtQ ![(1 : ℚ), 0, 0, 0] ⟨⟨2, 1, 0⟩, 1, 1 / 2⟩ ⟨⟨0, 0, 0⟩, 1, 1⟩ ∧
    Overlap sqrtQ ![(1 : ℚ), 0, 0, 0] ⟨⟨2, 1, 0⟩, 1, 1 / 2⟩ ⟨⟨0, 0, 0⟩, 1, 1⟩ ≤ 1 :=
  ⟨by norm_num [Overlap, Smoothstep, sqrtQ_one],
    Overlap_mem_unit_interval sqrtQ ![(1 : ℚ), 0, 0, 0] ⟨⟨2, 1, 0⟩, 1, 1 / 2⟩ ⟨⟨0, 0, 0⟩, 1, 1⟩
      (by norm_num [unitDir]) (by norm_num) (by norm_num) (by norm_num) (by norm_num)⟩

/-- C4: when every particle has radius `> 0` and opacity in `[0,1]` and the direction is a
unit vector, every serial shadow factor `expected[i]` lies in `[0,1]`. -/
theorem expected_mem_unit_interval {n : Nat} (sqrtf : α → α) (sunDir : Fin 4 → α)
    (particlesArr : Fin n → Particle α) (i : Fin n) (_hdir : unitDir sunDir)
    (hvalid : ∀ j, 0 < (particlesArr j).radius ∧ 0 ≤ (particlesArr j).opacity ∧
      (particlesArr j).opacity ≤ 1) :
    0 ≤ expected sqrtf sunDir particlesArr i ∧ expected sqrtf sunDir particlesArr i ≤ 1 := by
  rw [expected_eq_shadowFactor, shadowFactor]
  have h0 : ∀ j, 0 ≤ 1 - Overlap sqrtf sunDir (particlesArr j) (particlesArr i) := fun j =>
    sub_nonneg.2 (Overlap_le_one _ _ _ _ (hvalid j).2.2)
  have h1 : ∀ j, 1 - Overlap sqrtf sunDir (particlesArr j) (particlesArr i) ≤ 1 := fun j =>
    sub_le_self _ (Overlap_nonneg _ _ _ _ (hvalid j).2.1)
  exact ⟨Finset.prod_nonneg fun j _ => h0 j, Finset.prod_le_one (fun j _ => h0 j) fun j _ => h1 j⟩

theorem finRange_two : List.finRange 2 = [0, 1] := rfl

/-- Instance of C4: the receiver and caster of the `Part intersection` test as a population
of two; the shadow factor of particle 0 is `1 - 1/4`. -/
theorem expected_mem_unit_interval_witness :
    expected sqrtQ ![(1 : ℚ), 0, 0, 0]
        ![(⟨⟨0, 0, 0⟩, 1, 1⟩ : Particle ℚ), ⟨⟨2, 1, 0⟩, 1, 1 / 2⟩] 0 = 3 / 4 ∧
    0 ≤ expected sqrtQ ![(1 : ℚ), 0, 0, 0]
        ![(⟨⟨0, 0, 0⟩, 1, 1⟩ : Particle ℚ), ⟨⟨2, 1, 0⟩, 1, 1 / 2⟩] 0 ∧
    expected sqrtQ ![(1 : ℚ), 0, 0, 0]
        ![(⟨⟨0, 0, 0⟩, 1, 1⟩ : Particle ℚ), ⟨⟨2, 1, 0⟩, 1, 1 / 2⟩] 0 ≤ 1 :=
  ⟨by norm_num [expected, finRange_two, Overlap, Smoothstep, sqrtQ_one],
    expected_mem_unit_interval sqrtQ ![(1 : ℚ), 0, 0, 0]
      ![(⟨⟨0, 0, 0⟩, 1, 1⟩ : Particle ℚ), ⟨⟨2, 1, 0⟩, 1, 1 / 2⟩] 0
      (by norm_num [unitDir]) (by
        intro j
        fin_cases j <;> norm_num)⟩


theorem TestResult_error_aux {n : Nat} (sqrtf : α → α) (sunDir : Fin 4 → α)
    (particlesArr : Fin n → Particle α) (result : Fin n → α) (i : Fin n)
    (h : ¬ |result i - expected sqrtf sunDir particlesArr i| < 2748779 / 274877906944) :
    TestResult sqrtf sunDir particlesArr result = Except.error assertText := by
  unfold TestResult
  apply forM_assert_error
  exact ⟨i, List.mem_finRange i, by simpa [diff] using h⟩

theorem expected_pair_zero :
    expected sqrtQ ![(1 : ℚ), 0, 0, 0]
      ![(⟨⟨0, 0, 0⟩, 1, 1⟩ : Particle ℚ), ⟨⟨2, 1, 0⟩, 1, 1 / 2⟩] 0 = 3 / 4 := by
  norm_num [expected, finRange_two, Overlap, Smoothstep, sqrtQ_one]

theorem expected_pair_one :
    expected sqrtQ ![(1 : ℚ), 0, 0, 0]
      ![(⟨⟨0, 0, 0⟩, 1, 1⟩ : Particle ℚ), ⟨⟨2, 1, 0⟩, 1, 1 / 2⟩] 1 = 1 := by
  norm_num [expected, finRange_two, Overlap, Smoothstep, sqrtQ_one]

/-- Counterexample to C10 as stated: on the population of two of the `Part intersection`
test (serial shadow factors `3/4` and `1`), a result wrong by `1` at index 0 only and a
result wrong by `3` at index 1 only both end `TestResult` in the same aborted run, which
carries the text of the asserted expression and nothing else: neither the index nor the
actual value, the expected value or the delta can be read from it. -/
theorem TestResult_failure_has_no_detail :
    |(![3 / 4 + 1, 1] : Fin 2 → ℚ) 0 - expected sqrtQ ![(1 : ℚ), 0, 0, 0]
        ![(⟨⟨0, 0, 0⟩, 1, 1⟩ : Particle ℚ), ⟨⟨2, 1, 0⟩, 1, 1 / 2⟩] 0| = 1 ∧
    |(![3 / 4, 1 + 3] : Fin 2 → ℚ) 1 - expected sqrtQ ![(1 : ℚ), 0, 0, 0]
        ![(⟨⟨0, 0, 0⟩, 1, 1⟩ : Particle ℚ), ⟨⟨2, 1, 0⟩, 1, 1 / 2⟩] 1| = 3 ∧
    TestResult sqrtQ ![(1 : ℚ), 0, 0, 0]
        ![(⟨⟨0, 0, 0⟩, 1, 1⟩ : Particle ℚ), ⟨⟨2, 1, 0⟩, 1, 1 / 2⟩] ![3 / 4 + 1, 1]
      = Except.error "abs(result[i] - expected[i]) < diff" ∧
    TestResult sqrtQ ![(1 : ℚ), 0, 0, 0]
        ![(⟨⟨0, 0, 0⟩, 1, 1⟩ : Particle ℚ), ⟨⟨2, 1, 0⟩, 1, 1 / 2⟩] ![3 / 4, 1 + 3]
      = Except.error "abs(result[i] - expected[i]) < diff" := by
  refine ⟨?_, ?_, ?_, ?_⟩
  · rw [expected_pair_zero]; norm_num
  · rw [expected_pair_one]; norm_num
  · apply TestResult_error_aux _ _ _ _ 0
    rw [expected_pair_zero]; norm_num
  · apply TestResult_error_aux _ _ _ _ 1
    rw [expected_pair_one]; norm_num

/-- C10, amended: when the parallel result differs from the serial result beyond tolerance
at some index, `TestResult` does not return normally: the run is aborted by the failed
assertion, and what the abort carries is the fixed text of the asserted expression,
whatever the failing index, the actual and expected values and their difference are. -/
theorem TestResult_mismatch_aborts {n : Nat} (sqrtf : α → α) (sunDir : Fin 4 → α)
    (particlesArr : Fin n → Particle α) (result : Fin n → α)
    (h : ∃ i, ¬ |result i - expected sqrtf sunDir particlesArr i| < 2748779 / 274877906944) :
    TestResult sqrtf sunDir particlesArr result
      = Except.error "abs(result[i] - expected[i]) < diff" := by
  obtain ⟨i, hi⟩ := h
  exact TestResult_error_aux sqrtf sunDir particlesArr result i hi

/-- Instance of amended C10: a result off by `1/1000` at index 1 of the population of two. -/
theorem TestResult_mismatch_aborts_witness :
    TestResult sqrtQ ![(1 : ℚ), 0, 0, 0]
        ![(⟨⟨0, 0, 0⟩, 1, 1⟩ : Particle ℚ), ⟨⟨2, 1, 0⟩, 1, 1 / 2⟩] ![3 / 4, 1 - 1 / 1000]
      = Except.error "abs(result[i] - expected[i]) < diff" :=
  TestResult_mismatch_aborts sqrtQ ![(1 : ℚ), 0, 0, 0]
    ![(⟨⟨0, 0, 0⟩, 1, 1⟩ : Particle ℚ), ⟨⟨2, 1, 0⟩, 1, 1 / 2⟩] ![3 / 4, 1 - 1 / 1000]
    ⟨1, by rw [expected_pair_one]; norm_num [le_abs]⟩



/-! ## Lemmas on the generated population -/

theorem fillParticle_snd (RAND_MAX : Nat) (rand : Nat → Nat) (k : Nat) :
    (fillParticle RAND_MAX rand k : Particle α × Nat).2 = k + 5 := rfl

theorem fillParticle_radius (RAND_MAX : Nat) (rand : Nat → Nat) (k : Nat) :
    (fillParticle RAND_MAX rand k : Particle α × Nat).1.radius
      = (rand (k + 3) : α) / (RAND_MAX : α) := rfl

theorem fillParticles_length (RAND_MAX : Nat) (rand : Nat → Nat) (n k : Nat) :
    (fillParticles RAND_MAX rand n k : List (Particle α)).length = n := by
  induction n generalizing k with
  | zero => rfl
  | succ n ih => simp [fillParticles, ih]

theorem fillParticles_getElem? (RAND_MAX : Nat) (rand : Nat → Nat) (n k i : Nat) (hi : i < n) :
    (fillParticles RAND_MAX rand n k : List (Particle α))[i]?
      = some (fillParticle RAND_MAX rand (k + 5 * i)).1 := by
  induction n generalizing k i with
  | zero => omega
  | succ n ih =>
    cases i with
    | zero => simp [fillParticles]
    | succ i =>
      simp only [fillParticles, List.getElem?_cons_succ, fillParticle_snd]
      rw [ih (k + 5) i (by omega)]
      congr 3
      omega

theorem mem_of_mem_receivers (particlesArr : List (Particle α)) (p : Particle α)
    (h : p ∈ receivers particlesArr) : p ∈ particlesArr := by
  simp only [receivers, List.mem_flatMap, List.mem_map] at h
  obtain ⟨i, -, j, -, rfl⟩ := h
  exact List.get_mem _ _ _

theorem receivers_pair (p q : Particle α) : receivers [p, q] = [p, q] := rfl

theorem frand_radius_range (RAND_MAX r : Nat) (hmax : 0 < RAND_MAX) (hr : r ≤ RAND_MAX) :
    (0 : α) ≤ (r : α) / (RAND_MAX : α) ∧ (r : α) / (RAND_MAX : α) ≤ 1 ∧
      ((0 : α) < (r : α) / (RAND_MAX : α) ↔ r ≠ 0) := by
  have hM : (0 : α) < (RAND_MAX : α) := by exact_mod_cast hmax
  refine ⟨by positivity, ?_, ?_⟩
  · rw [div_le_one hM]; exact_mod_cast hr
  · rw [div_pos_iff_of_pos_right hM, Nat.cast_pos, Nat.pos_iff_ne_zero]

/-- Counterexample to C11 as stated: with `RAND_MAX = 32767` and a sequence of `rand()`
outputs that are all in `[0, RAND_MAX]`, `16384` everywhere except a `0` at the fourth call
(the radius of the first particle), the two particles `CreateIOBuffers` generates are both
receivers of a call of `Overlap` in `TestResult`, and the first has radius exactly 0. -/
theorem CreateIOBuffers_zero_radius_receiver :
    (∀ k, (fun k => if k = 3 then 0 else 16384) k ≤ 32767) ∧
    (receivers (CreateIOBuffers sqrtQ 32767 (fun k => if k = 3 then 0 else 16384) 2 :
      IOBuffers ℚ).particlesArr).map (fun p => p.radius) = [0, 16384 / 32767] := by
  constructor
  · intro k
    dsimp only
    split_ifs <;> omega
  · simp only [CreateIOBuffers, fillParticles, receivers_pair, List.map_cons, List.map_nil,
      fillParticle_radius, fillParticle_snd]
    norm_num

/-- C11, amended: for every sequence of `rand()` outputs in `[0, RAND_MAX]` (with
`RAND_MAX > 0`), every particle `CreateIOBuffers` generates, hence every receiver
`TestResult` passes to `Overlap`, has a radius in `[0, 1]`: the radius of particle `i` is
the output of call number `5 * i + 3` (counted from 0) divided by `RAND_MAX`, and it is
strictly greater than 0 exactly when that output is not 0. -/
theorem CreateIOBuffers_radius (sqrtf : α → α) (RAND_MAX : Nat) (rand : Nat → Nat) (n : Nat)
    (hmax : 0 < RAND_MAX) (hrand : ∀ k, rand k ≤ RAND_MAX) :
    (∀ i, i < n → ∃ p : Particle α,
      (CreateIOBuffers sqrtf RAND_MAX rand n).particlesArr[i]? = some p ∧
      p.radius = (rand (5 * i + 3) : α) / (RAND_MAX : α) ∧
      0 ≤ p.radius ∧ p.radius ≤ 1 ∧ (0 < p.radius ↔ rand (5 * i + 3) ≠ 0)) ∧
    (∀ p ∈ receivers (CreateIOBuffers sqrtf RAND_MAX rand n).particlesArr,
      0 ≤ p.radius ∧ p.radius ≤ 1) := by
  have hgen : ∀ i, i < n → ∃ p : Particle α,
      (CreateIOBuffers sqrtf RAND_MAX rand n).particlesArr[i]? = some p ∧
      p.radius = (rand (5 * i + 3) : α) / (RAND_MAX : α) ∧
      0 ≤ p.radius ∧ p.radius ≤ 1 ∧ (0 < p.radius ↔ rand (5 * i + 3) ≠ 0) := by
    intro i hi
    refine ⟨(fillParticle RAND_MAX rand (0 + 5 * i)).1,
      fillParticles_getElem? RAND_MAX rand n 0 i hi, ?_⟩
    have hrad : (fillParticle RAND_MAX rand (0 + 5 * i) : Particle α × Nat).1.radius
        = (rand (5 * i + 3) : α) / (RAND_MAX : α) := by
      rw [fillParticle_radius, Nat.zero_add]
    rw [hrad]
    exact ⟨rfl, frand_radius_range RAND_MAX _ hmax (hrand _)⟩
  refine ⟨hgen, fun p hp => ?_⟩
  have hmem := mem_of_mem_receivers _ p hp
  obtain ⟨i, hi, hpi⟩ := List.getElem_of_mem hmem
  have hlen : i < n := by
    have := fillParticles_length (α := α) RAND_MAX rand n 0
    simpa [CreateIOBuffers, this] using hi
  obtain ⟨q, hq, -, h0, h1, -⟩ := hgen i hlen
  have : q = p := by
    rw [List.getElem?_eq_getElem hi, hpi] at hq
    exact (Option.some.inj hq).symm
  subst this
  exact ⟨h0, h1⟩

/-- Instance of amended C11 on the sequence of the counterexample: the second particle's
radius comes from call number 8, is `16384 / 32767` and is positive. -/
theorem CreateIOBuffers_radius_witness :
    ∃ p : Particle ℚ,
      (CreateIOBuffers sqrtQ 32767 (fun k => if k = 3 then 0 else 16384) 2).particlesArr[1]?
        = some p ∧
      p.radius = ((fun k => if k = 3 then 0 else 16384 : Nat → Nat) (5 * 1 + 3) : ℚ)
        / ((32767 : Nat) : ℚ) ∧
      0 ≤ p.radius ∧ p.radius ≤ 1 ∧
      (0 < p.radius ↔ (fun k => if k = 3 then 0 else 16384 : Nat → Nat) (5 * 1 + 3) ≠ 0) :=
  (CreateIOBuffers_radius sqrtQ 32767 (fun k => if k = 3 then 0 else 16384) 2 (by norm_num)
    (fun k => by dsimp only; split_ifs <;> omega)).1 1 (by norm_num)


/-- C12, evaluated on the code: every device operation succeeds except `CreateConstBuffer`
(called by `SetUniforms`), which returns a failure code.  `main` goes on to
`RunComputeShader`, `CreateAndCopyToDebugBuf`, `Map` and `TestResult`; it returns 0 when the
assertions of `TestResult` hold, and is otherwise stopped by the assertion, after the
readback. -/
theorem main_ignores_CreateConstBuffer_failure :
    main { createComputeDevice := true, createComputeShader := true,
           createParticlesBuffer := true, createShadowBuffer := true,
           createBufferSRV := true, createBufferUAV := true,
           createConstBuffer := false, createDebugBuffer := true, assertionsHold := true } =
      ([Call.TestOverlapHost, Call.CreateComputeDevice, Call.CreateComputeShader,
        Call.CreateStructuredBufferParticles, Call.CreateStructuredBufferShadow,
        Call.CreateBufferSRV, Call.CreateBufferUAV, Call.CreateConstBuffer,
        Call.RunComputeShader, Call.CreateAndCopyToDebugBuf, Call.Map, Call.TestResult,
        Call.Unmap], Exit.code 0) ∧
    main { createComputeDevice := true, createComputeShader := true,
           createParticlesBuffer := true, createShadowBuffer := true,
           createBufferSRV := true, createBufferUAV := true,
           createConstBuffer := false, createDebugBuffer := true, assertionsHold := false } =
      ([Call.TestOverlapHost, Call.CreateComputeDevice, Call.CreateComputeShader,
        Call.CreateStructuredBufferParticles, Call.CreateStructuredBufferShadow,
        Call.CreateBufferSRV, Call.CreateBufferUAV, Call.CreateConstBuffer,
        Call.RunComputeShader, Call.CreateAndCopyToDebugBuf, Call.Map, Call.TestResult],
        Exit.aborted) := by
  decide

/-- The two failures `main` does propagate: a failed `CreateComputeDevice` or
`CreateComputeShader` ends the run with `return 1` before any buffer is created. -/
theorem main_propagates_device_and_shader_failure (r : DeviceResults)
    (h : r.createComputeDevice = false ∨ r.createComputeShader = false) :
    (main r).2 = Exit.code 1 ∧ Call.CreateAndCopyToDebugBuf ∉ (main r).1 ∧
      Call.Map ∉ (main r).1 ∧ Call.TestResult ∉ (main r).1 := by
  obtain ⟨b1, b2, b3, b4, b5, b6, b7, b8, b9⟩ := r
  rcases h with h | h
  · simp only at h; subst h; simp [main]
  · simp only at h; subst h; cases b1 <;> simp [main]

/-- Once the device and the shader exist, no result of a later device operation makes
`main` return a non-zero code; when both buffers exist, the readback calls are made whatever
the results of the two views, of the constant buffer and of the staging copy are. -/
theorem main_after_shader (r : DeviceResults) (hd : r.createComputeDevice = true)
    (hs : r.createComputeShader = true) :
    (∀ c : Int, c ≠ 0 → (main r).2 ≠ Exit.code c) ∧
    (r.createParticlesBuffer = true → r.createShadowBuffer = true →
      Call.CreateAndCopyToDebugBuf ∈ (main r).1 ∧ Call.Map ∈ (main r).1 ∧
        Call.TestResult ∈ (main r).1) := by
  obtain ⟨b1, b2, b3, b4, b5, b6, b7, b8, b9⟩ := r
  simp only at hd hs
  subst hd hs
  constructor
  · intro c hc
    cases b3 <;> cases b4 <;> cases b8 <;> cases b9 <;>
      simp [main, CreateIOBuffersCalls, SetUniformsCalls, Ne.symm hc]
  · intro hp hq
    simp only at hp hq
    subst hp hq
    cases b8 <;> cases b9 <;> simp [main, CreateIOBuffersCalls, SetUniformsCalls]


/-- C13: the light direction `CreateIOBuffers` produces is normalized.  When `sqrtf` returns
a square root of `0.5 * 0.5 + 0.2 * 0.2 + 0.3 * 0.3` (its square is that number), then in
exact arithmetic `sunDir[0]^2 + sunDir[1]^2 + sunDir[2]^2 = 1`, the first three components
are `0.5`, `0.2` and `0.3` divided by that square root, and the padding `sunDir[3]` is 0. -/
theorem CreateIOBuffers_sunDir_normalized (sqrtf : α → α) (RAND_MAX : Nat) (rand : Nat → Nat)
    (n : Nat)
    (hsqrt : sqrtf (0.5 * 0.5 + 0.2 * 0.2 + 0.3 * 0.3) * sqrtf (0.5 * 0.5 + 0.2 * 0.2 + 0.3 * 0.3)
      = 0.5 * 0.5 + 0.2 * 0.2 + 0.3 * 0.3) :
    (CreateIOBuffers sqrtf RAND_MAX rand n).sunDir 0 ^ 2
      + (CreateIOBuffers sqrtf RAND_MAX rand n).sunDir 1 ^ 2
      + (CreateIOBuffers sqrtf RAND_MAX rand n).sunDir 2 ^ 2 = 1 ∧
    unitDir (CreateIOBuffers sqrtf RAND_MAX rand n).sunDir ∧
    (CreateIOBuffers sqrtf RAND_MAX rand n).sunDir 0
      = 0.5 / sqrtf (0.5 * 0.5 + 0.2 * 0.2 + 0.3 * 0.3) ∧
    (CreateIOBuffers sqrtf RAND_MAX rand n).sunDir 1
      = 0.2 / sqrtf (0.5 * 0.5 + 0.2 * 0.2 + 0.3 * 0.3) ∧
    (CreateIOBuffers sqrtf RAND_MAX rand n).sunDir 2
      = 0.3 / sqrtf (0.5 * 0.5 + 0.2 * 0.2 + 0.3 * 0.3) ∧
    (CreateIOBuffers sqrtf RAND_MAX rand n).sunDir 3 = 0 := by
  generalize hs : sqrtf (0.5 * 0.5 + 0.2 * 0.2 + 0.3 * 0.3) = s at hsqrt
  have hne : s ≠ 0 := by
    rintro rfl
    norm_num at hsqrt
  have hsq : s ^ 2 = 0.5 * 0.5 + 0.2 * 0.2 + 0.3 * 0.3 := by rw [pow_two]; exact hsqrt
  have key : (0.5 * (1 / s)) ^ 2 + (0.2 * (1 / s)) ^ 2 + (0.3 * (1 / s)) ^ 2 = (1 : α) := by
    field_simp
    rw [hsq]; ring
  refine ⟨?_, ?_, ?_, ?_, ?_, ?_⟩
  · simpa [CreateIOBuffers, hs] using key
  · simp only [unitDir, CreateIOBuffers, hs, Matrix.cons_val_zero, Matrix.cons_val_one,
      Matrix.head_cons, Matrix.cons_val_two, Matrix.tail_cons]
    calc _ = (0.5 * (1 / s)) ^ 2 + (0.2 * (1 / s)) ^ 2 + (0.3 * (1 / s)) ^ 2 := by ring
      _ = 1 := key
  · simp [CreateIOBuffers, hs, div_eq_mul_inv]
  · simp [CreateIOBuffers, hs, div_eq_mul_inv]
  · simp [CreateIOBuffers, hs, div_eq_mul_inv]
  · simp [CreateIOBuffers]

/-- Instance of C13 in real arithmetic, with the real square root for `sqrtf`. -/
theorem CreateIOBuffers_sunDir_normalized_witness :
    (CreateIOBuffers Real.sqrt 32767 (fun _ => 41) 2).sunDir 0 ^ 2
      + (CreateIOBuffers Real.sqrt 32767 (fun _ => 41) 2).sunDir 1 ^ 2
      + (CreateIOBuffers Real.sqrt 32767 (fun _ => 41) 2).sunDir 2 ^ 2 = 1 ∧
    (CreateIOBuffers Real.sqrt 32767 (fun _ => 41) 2).sunDir 3 = 0 :=
  have h := CreateIOBuffers_sunDir_normalized Real.sqrt 32767 (fun _ => 41) 2
    (Real.mul_self_sqrt (by norm_num))
  ⟨h.1, h.2.2.2.2.2⟩


/-! ## Monotonicity of the falloff -/

/-- The cubic `t * t * (3 - 2 * t)` is non-decreasing on `[0, 1]`. -/
theorem hermite_mono (t1 t2 : α) (h0 : 0 ≤ t1) (h12 : t1 ≤ t2) (h1 : t2 ≤ 1) :
    t1 * t1 * (3 - 2 * t1) ≤ t2 * t2 * (3 - 2 * t2) := by
  have h2 : 0 ≤ t2 := h0.trans h12
  have h11 : t1 ≤ 1 := h12.trans h1
  have hfac : t2 * t2 * (3 - 2 * t2) - t1 * t1 * (3 - 2 * t1)
      = (t2 - t1) * (3 * (t1 + t2) - 2 * (t1 * t1 + t1 * t2 + t2 * t2)) := by ring
  have hpos : 0 ≤ 3 * (t1 + t2) - 2 * (t1 * t1 + t1 * t2 + t2 * t2) := by
    nlinarith [mul_nonneg h0 (sub_nonneg.2 h11), mul_nonneg h2 (sub_nonneg.2 h1),
      mul_nonneg h0 (sub_nonneg.2 h1), mul_nonneg h2 (sub_nonneg.2 h11)]
  have := mul_nonneg (sub_nonneg.2 h12) hpos
  linarith

/-- With `edge1 < edge0` the function `Smoothstep edge0 edge1` is non-increasing. -/
theorem Smoothstep_antitone (e0 e1 d1 d2 : α) (he : e1 < e0) (hd : d1 ≤ d2) :
    Smoothstep e0 e1 d2 ≤ Smoothstep e0 e1 d1 := by
  have hneg : e1 - e0 < 0 := by linarith
  have hq : (d2 - e0) / (e1 - e0) ≤ (d1 - e0) / (e1 - e0) :=
    div_le_div_of_nonpos_of_le hneg.le (by linarith)
  have ht : min (max ((d2 - e0) / (e1 - e0)) 0) 1 ≤ min (max ((d1 - e0) / (e1 - e0)) 0) 1 :=
    min_le_min (max_le_max hq le_rfl) le_rfl
  exact hermite_mono _ _ (le_min (le_max_right _ _) zero_le_one) ht (min_le_right _ _)

/-- C14, amended (monotonic falloff, in exact real arithmetic): for positive radii the
falloff
`Smoothstep(radius_receiver + radius_caster, |radius_receiver - radius_caster|, d)` is
non-increasing in `d`, is 1 at the inner boundary and 0 at the outer boundary; hence, of two
placements of a caster with opacity `≥ 0` that are both not behind the receiver, the one
with the larger lateral distance has the smaller or equal `Overlap`. -/
theorem Overlap_falloff_monotone (sqrtf : α → α) (dir : Fin 4 → α)
    (caster1 caster2 receiver : Particle α)
    (hr : 0 < receiver.radius) (hc : 0 < caster1.radius)
    (hrad : caster2.radius = caster1.radius) (hop : caster2.opacity = caster1.opacity)
    (hop0 : 0 ≤ caster1.opacity)
    (hfront1 : dot dir receiver.pos ≤ dot dir caster1.pos)
    (hfront2 : dot dir receiver.pos ≤ dot dir caster2.pos) :
    (∀ d1 d2 : α, d1 ≤ d2 →
      Smoothstep (receiver.radius + caster1.radius) |receiver.radius - caster1.radius| d2
        ≤ Smoothstep (receiver.radius + caster1.radius) |receiver.radius - caster1.radius| d1) ∧
    Smoothstep (receiver.radius + caster1.radius) |receiver.radius - caster1.radius|
      |receiver.radius - caster1.radius| = 1 ∧
    Smoothstep (receiver.radius + caster1.radius) |receiver.radius - caster1.radius|
      (receiver.radius + caster1.radius) = 0 ∧
    (lateralDistance sqrtf dir caster1 receiver ≤ lateralDistance sqrtf dir caster2 receiver →
      Overlap sqrtf dir caster2 receiver ≤ Overlap sqrtf dir caster1 receiver) := by
  have he := edges_lt _ _ hr hc
  refine ⟨fun d1 d2 h => Smoothstep_antitone _ _ _ _ he h,
    Smoothstep_eq_one _ _ _ he le_rfl, Smoothstep_eq_zero _ _ _ he le_rfl, fun hd => ?_⟩
  have hcov : coverage caster2 receiver = coverage caster1 receiver := by
    simp [coverage, hrad, hop]
  rw [Overlap_of_not_lt _ _ _ _ (not_lt.2 hfront1), Overlap_of_not_lt _ _ _ _ (not_lt.2 hfront2),
    hcov, hrad]
  exact mul_le_mul_of_nonneg_left (Smoothstep_antitone _ _ _ _ he hd)
    (coverage_nonneg _ _ hop0)

/-- Instance of C14: direction `(1,0,0)`, receiver of radius 1 at the origin, a caster of
radius 1 and opacity `1/2` placed at lateral distance 0 (at `(2,0,0)`) and at lateral
distance 1 (at `(2,1,0)`): `Overlap` goes from `1/2` down to `1/4`. -/
theorem Overlap_falloff_monotone_witness :
    Overlap sqrtQ ![(1 : ℚ), 0, 0, 0] ⟨⟨2, 0, 0⟩, 1, 1 / 2⟩ ⟨⟨0, 0, 0⟩, 1, 1⟩ = 1 / 2 ∧
    Overlap sqrtQ ![(1 : ℚ), 0, 0, 0] ⟨⟨2, 1, 0⟩, 1, 1 / 2⟩ ⟨⟨0, 0, 0⟩, 1, 1⟩ = 1 / 4 ∧
    Overlap sqrtQ ![(1 : ℚ), 0, 0, 0] ⟨⟨2, 1, 0⟩, 1, 1 / 2⟩ ⟨⟨0, 0, 0⟩, 1, 1⟩
      ≤ Overlap sqrtQ ![(1 : ℚ), 0, 0, 0] ⟨⟨2, 0, 0⟩, 1, 1 / 2⟩ ⟨⟨0, 0, 0⟩, 1, 1⟩ :=
  ⟨by norm_num [Overlap, Smoothstep, sqrtQ_zero],
    by norm_num [Overlap, Smoothstep, sqrtQ_one],
    (Overlap_falloff_monotone sqrtQ ![(1 : ℚ), 0, 0, 0]
      ⟨⟨2, 0, 0⟩, 1, 1 / 2⟩ ⟨⟨2, 1, 0⟩, 1, 1 / 2⟩ ⟨⟨0, 0, 0⟩, 1, 1⟩
      (by norm_num) (by norm_num) rfl rfl (by norm_num) (by norm_num [dot]) (by norm_num [dot])).2.2.2
      (by norm_num [lateralDistance, perp, dot, sqrtQ_zero, sqrtQ_one])⟩


/-! ## Division safety and depth independence -/

theorem dot_moveAlong (dir : Fin 4 → α) (s : α) (caster : Particle α) (hdir : unitDir dir) :
    dot dir (moveAlong dir s caster).pos = dot dir caster.pos + s := by
  unfold unitDir at hdir
  simp only [dot, moveAlong]
  linear_combination s * hdir

theorem perp_moveAlong (dir : Fin 4 → α) (s : α) (caster : Particle α) (hdir : unitDir dir) :
    perp dir (moveAlong dir s caster).pos = perp dir caster.pos := by
  have hd := dot_moveAlong dir s caster hdir
  simp only [perp, hd]
  simp only [moveAlong, Pos.mk.injEq]
  refine ⟨by ring, by ring, by ring⟩

theorem lateralDistance_eq_of_perp (sqrtf : α → α) (dir : Fin 4 → α)
    (caster1 caster2 receiver : Particle α) (h : perp dir caster2.pos = perp dir caster1.pos) :
    lateralDistance sqrtf dir caster2 receiver = lateralDistance sqrtf dir caster1 receiver := by
  simp only [lateralDistance, h]

/-- C16 (depth independence): for a unit direction, a caster that is not behind the receiver
and `s ≥ 0`, moving the caster by `s * dir` leaves `Overlap` unchanged in exact arithmetic:
the perpendicular component of its position is unchanged, and `Overlap` is the same for any
two casters in front of the receiver with the same radius, opacity and perpendicular
component. -/
theorem Overlap_depth_independent (sqrtf : α → α) (dir : Fin 4 → α)
    (caster receiver : Particle α) (s : α) (hdir : unitDir dir)
    (hfront : dot dir receiver.pos ≤ dot dir caster.pos) (hs : 0 ≤ s) :
    Overlap sqrtf dir (moveAlong dir s caster) receiver = Overlap sqrtf dir caster receiver ∧
    perp dir (moveAlong dir s caster).pos = perp dir caster.pos ∧
    (∀ caster2 : Particle α, caster2.radius = caster.radius → caster2.opacity = caster.opacity →
      perp dir caster2.pos = perp dir caster.pos →
      dot dir receiver.pos ≤ dot dir caster2.pos →
      Overlap sqrtf dir caster2 receiver = Overlap sqrtf dir caster receiver) := by
  have hgen : ∀ caster2 : Particle α, caster2.radius = caster.radius →
      caster2.opacity = caster.opacity → perp dir caster2.pos = perp dir caster.pos →
      dot dir receiver.pos ≤ dot dir caster2.pos →
      Overlap sqrtf dir caster2 receiver = Overlap sqrtf dir caster receiver := by
    intro caster2 hrad hop hperp hfront2
    rw [Overlap_of_not_lt _ _ _ _ (not_lt.2 hfront), Overlap_of_not_lt _ _ _ _ (not_lt.2 hfront2),
      lateralDistance_eq_of_perp sqrtf dir caster caster2 receiver hperp]
    simp only [coverage, hrad, hop]
  refine ⟨hgen _ rfl rfl (perp_moveAlong dir s caster hdir) ?_,
    perp_moveAlong dir s caster hdir, hgen⟩
  rw [dot_moveAlong dir s caster hdir]
  linarith

/-- Instance of C16: the `Part intersection` input of `TestOverlapHost` with its caster
moved by `3 * dir` from `(2,1,0)` to `(5,1,0)`; `Overlap` stays `1/4`. -/
theorem Overlap_depth_independent_witness :
    Overlap sqrtQ ![(1 : ℚ), 0, 0, 0] ⟨⟨2 + 3 * 1, 1 + 3 * 0, 0 + 3 * 0⟩, 1, 1 / 2⟩
        ⟨⟨0, 0, 0⟩, 1, 1⟩
      = Overlap sqrtQ ![(1 : ℚ), 0, 0, 0] ⟨⟨2, 1, 0⟩, 1, 1 / 2⟩ ⟨⟨0, 0, 0⟩, 1, 1⟩ ∧
    Overlap sqrtQ ![(1 : ℚ), 0, 0, 0] ⟨⟨2, 1, 0⟩, 1, 1 / 2⟩ ⟨⟨0, 0, 0⟩, 1, 1⟩ = 1 / 4 :=
  ⟨(Overlap_depth_independent sqrtQ ![(1 : ℚ), 0, 0, 0] ⟨⟨2, 1, 0⟩, 1, 1 / 2⟩ ⟨⟨0, 0, 0⟩, 1, 1⟩ 3
      (by norm_num [unitDir]) (by norm_num [dot]) (by norm_num)).1,
    by norm_num [Overlap, Smoothstep, sqrtQ_one]⟩


/-! ## The code's arithmetic: lemmas -/

theorem isqrt_spec (n : Nat) :
    isqrt n * isqrt n ≤ n ∧ n < (isqrt n + 1) * (isqrt n + 1) := by
  induction n with
  | zero => simp [isqrt]
  | succ n ih =>
    rw [isqrt]
    split_ifs with h
    · exact ⟨h, by nlinarith [ih.2]⟩
    · exact ⟨by omega, by omega⟩

theorem isqrt_mul_self (m : Nat) : isqrt (m * m) = m := by
  have h := isqrt_spec (m * m)
  have h1 : isqrt (m * m) ≤ m := Nat.mul_self_le_mul_self_iff.1 h.1
  have h2 : m < isqrt (m * m) + 1 := Nat.mul_self_lt_mul_self_iff.1 h.2
  omega

/-- The concrete square root is exact on squares of non-negative rationals. -/
theorem sqrtQ_mul_self (q : ℚ) (h : 0 ≤ q) : sqrtQ (q * q) = q := by
  have hnum : 0 ≤ q.num := Rat.num_nonneg.2 h
  obtain ⟨k, hk⟩ := Int.eq_ofNat_of_zero_le hnum
  have h1 : (q * q).num.toNat = k * k := by
    rw [Rat.mul_self_num, hk]
    norm_cast
  rw [sqrtQ, h1, Rat.mul_self_den, isqrt_mul_self, isqrt_mul_self]
  have := Rat.num_div_den q
  rw [hk, Int.cast_natCast] at this
  exact this

theorem diffFloat_val : diffFloat.val = Flt.fin false (2748779 / 274877906944) := by
  decide!

theorem assertBuild_ndebug (cond : Prop) [Decidable cond] (text : String) :
    assertBuild true cond text = Except.ok () := rfl

theorem forM_ok {ι : Type} (l : List ι) :
    (l.forM fun _ => (Except.ok () : Except String Unit)) = Except.ok () := by
  induction l with
  | nil => rfl
  | cons b l ih =>
    rw [List.forM]
    simp only [bind, Except.bind]
    exact ih

theorem TestResultFloat_ok_iff_aux {n : Nat} (sunDir : Fin 4 → F32)
    (particlesArr : Fin n → Particle F32) (result : Fin n → F32) :
    TestResultFloat false sunDir particlesArr result = Except.ok () ↔
      ∀ i, F32.abs (result i - expectedFloat sunDir particlesArr i) < diffFloat := by
  unfold TestResultFloat
  simp only [assertBuild, Bool.false_eq_true, if_false]
  rw [forM_assert_ok]
  simp [List.mem_finRange]

theorem TestResultFloat_error_aux {n : Nat} (sunDir : Fin 4 → F32)
    (particlesArr : Fin n → Particle F32) (result : Fin n → F32) (i : Fin n)
    (h : ¬ F32.abs (result i - expectedFloat sunDir particlesArr i) < diffFloat) :
    TestResultFloat false sunDir particlesArr result = Except.error assertText := by
  unfold TestResultFloat
  simp only [assertBuild, Bool.false_eq_true, if_false]
  apply forM_assert_error
  exact ⟨i, List.mem_finRange i, h⟩

theorem TestResultFloat_ndebug_aux {n : Nat} (sunDir : Fin 4 → F32)
    (particlesArr : Fin n → Particle F32) (result : Fin n → F32) :
    TestResultFloat true sunDir particlesArr result = Except.ok () := by
  unfold TestResultFloat
  simp only [assertBuild_ndebug]
  exact forM_ok _

/-- The serial shadow factors of the population of two used below, in the code's arithmetic:
a receiver of radius 1 and a caster of radius 1 and opacity 1 right in front of it. -/
theorem expectedFloat_covered_pair :
    expectedFloat (dirToFloat ![1, 0, 0, 0])
        ![Particle.toFloat ⟨⟨0, 0, 0⟩, 1, 1⟩, Particle.toFloat ⟨⟨2, 0, 0⟩, 1, 1⟩] 0
      = F32.ofRat 0 ∧
    expectedFloat (dirToFloat ![1, 0, 0, 0])
        ![Particle.toFloat ⟨⟨0, 0, 0⟩, 1, 1⟩, Particle.toFloat ⟨⟨2, 0, 0⟩, 1, 1⟩] 1
      = F32.ofRat 1 := by
  constructor <;> decide!

/-- Counterexample to C9 as stated.  Population of two: a receiver of radius 1 at the origin
and a caster of radius 1 and opacity 1 at `(2,0,0)`, direction `(1,0,0)`; the serial shadow
factors are 0 and 1.  (1) The result `(1e-5f, 1)` differs from them by less than `1e-5` at
every index (`1e-5f` is `2748779 / 2 ^ 38`), yet with assertions enabled `TestResult` is
stopped by its assertion.  (2) The result `(1, 1)` is off by 1 at index 0, yet in a build
with `NDEBUG` `TestResult` runs to its end.  (3) With a second caster at `(3,0,0)` and both
casters of opacity `1 - 2 ^ (-24)`, the serial shadow factors are `2 ^ (-48)`, `2 ^ (-24)`
and 1; the result `(1e-5f, 2 ^ (-24), 1)` differs from them by less than `1e-5f` at every
index, yet the `float` difference `1e-5f - 2 ^ (-48)` is rounded to `1e-5f` and
`TestResult` is stopped by its assertion. -/
theorem TestResult_tolerance_and_NDEBUG :
    expectedFloat (dirToFloat ![1, 0, 0, 0])
        ![Particle.toFloat ⟨⟨0, 0, 0⟩, 1, 1⟩, Particle.toFloat ⟨⟨2, 0, 0⟩, 1, 1⟩] 0
      = F32.ofRat 0 ∧
    expectedFloat (dirToFloat ![1, 0, 0, 0])
        ![Particle.toFloat ⟨⟨0, 0, 0⟩, 1, 1⟩, Particle.toFloat ⟨⟨2, 0, 0⟩, 1, 1⟩] 1
      = F32.ofRat 1 ∧
    isFloat (2748779 / 274877906944) ∧
    |(2748779 / 274877906944 : ℚ) - 0| < 1 / 100000 ∧ |(1 : ℚ) - 1| < 1 / 100000 ∧
    TestResultFloat false (dirToFloat ![1, 0, 0, 0])
        ![Particle.toFloat ⟨⟨0, 0, 0⟩, 1, 1⟩, Particle.toFloat ⟨⟨2, 0, 0⟩, 1, 1⟩]
        ![F32.ofRat (2748779 / 274877906944), F32.ofRat 1]
      = Except.error "abs(result[i] - expected[i]) < diff" ∧
    ¬ |(1 : ℚ) - 0| < 1 / 100000 ∧
    TestResultFloat true (dirToFloat ![1, 0, 0, 0])
        ![Particle.toFloat ⟨⟨0, 0, 0⟩, 1, 1⟩, Particle.toFloat ⟨⟨2, 0, 0⟩, 1, 1⟩]
        ![F32.ofRat 1, F32.ofRat 1]
      = Except.ok () ∧
    (expectedFloat (dirToFloat ![1, 0, 0, 0])
        ![Particle.toFloat ⟨⟨0, 0, 0⟩, 1, 1⟩,
          Particle.toFloat ⟨⟨2, 0, 0⟩, 1, 16777215 / 16777216⟩,
          Particle.toFloat ⟨⟨3, 0, 0⟩, 1, 16777215 / 16777216⟩] 0
        = F32.ofRat (1 / 281474976710656) ∧
      expectedFloat (dirToFloat ![1, 0, 0, 0])
        ![Particle.toFloat ⟨⟨0, 0, 0⟩, 1, 1⟩,
          Particle.toFloat ⟨⟨2, 0, 0⟩, 1, 16777215 / 16777216⟩,
          Particle.toFloat ⟨⟨3, 0, 0⟩, 1, 16777215 / 16777216⟩] 1
        = F32.ofRat (1 / 16777216) ∧
      expectedFloat (dirToFloat ![1, 0, 0, 0])
        ![Particle.toFloat ⟨⟨0, 0, 0⟩, 1, 1⟩,
          Particle.toFloat ⟨⟨2, 0, 0⟩, 1, 16777215 / 16777216⟩,
          Particle.toFloat ⟨⟨3, 0, 0⟩, 1, 16777215 / 16777216⟩] 2
        = F32.ofRat 1 ∧
      isFloat (16777215 / 16777216) ∧ isFloat (1 / 281474976710656) ∧
      isFloat (1 / 16777216) ∧
      |(2748779 / 274877906944 : ℚ) - 1 / 281474976710656| < 2748779 / 274877906944 ∧
      |(1 / 16777216 : ℚ) - 1 / 16777216| < 2748779 / 274877906944 ∧
      |(1 : ℚ) - 1| < 2748779 / 274877906944 ∧
      F32.abs (F32.ofRat (2748779 / 274877906944) - F32.ofRat (1 / 281474976710656))
        = F32.ofRat (2748779 / 274877906944) ∧
      TestResultFloat false (dirToFloat ![1, 0, 0, 0])
        ![Particle.toFloat ⟨⟨0, 0, 0⟩, 1, 1⟩,
          Particle.toFloat ⟨⟨2, 0, 0⟩, 1, 16777215 / 16777216⟩,
          Particle.toFloat ⟨⟨3, 0, 0⟩, 1, 16777215 / 16777216⟩]
        ![F32.ofRat (2748779 / 274877906944), F32.ofRat (1 / 16777216), F32.ofRat 1]
        = Except.error "abs(result[i] - expected[i]) < diff") := by
  refine ⟨expectedFloat_covered_pair.1, expectedFloat_covered_pair.2, by decide!, ?_, ?_, ?_,
    ?_, TestResultFloat_ndebug_aux _ _ _, by decide!, by decide!, by decide!, by decide!,
    by decide!, by decide!, ?_, ?_, ?_, by decide!, ?_⟩
  · rw [abs_of_nonneg (by norm_num)]; norm_num
  · norm_num
  · exact TestResultFloat_error_aux _ _ _ 0 (by decide!)
  · rw [abs_of_nonneg (by norm_num)]; norm_num
  · rw [abs_of_nonneg (by norm_num)]; norm_num
  · norm_num
  · norm_num
  · exact TestResultFloat_error_aux _ _ _ 0 (by decide!)

/-- C9, amended: with assertions enabled (`NDEBUG` not defined), for every parallel result
array, population and direction, `TestResult` succeeds if and only if for every index `i`
the `float` value `abs(result[i] - expected[i])` is less than the `float` constant `1e-5f`
(which is `2748779 / 2 ^ 38`), where `expected[i]` is the serial shadow factor recomputed in
`float` arithmetic; any element for which that comparison fails makes it fail.  In a build
with `NDEBUG` the assertions are compiled out and `TestResult` always succeeds. -/
theorem TestResultFloat_succeeds_iff {n : Nat} (sunDir : Fin 4 → F32)
    (particlesArr : Fin n → Particle F32) (result : Fin n → F32) :
    (TestResultFloat false sunDir particlesArr result = Except.ok () ↔
      ∀ i, F32.abs (result i - expectedFloat sunDir particlesArr i) < diffFloat) ∧
    (∀ i, ¬ F32.abs (result i - expectedFloat sunDir particlesArr i) < diffFloat →
      TestResultFloat false sunDir particlesArr result ≠ Except.ok ()) ∧
    TestResultFloat true sunDir particlesArr result = Except.ok () ∧
    diffFloat.val = Flt.fin false (2748779 / 274877906944) := by
  refine ⟨TestResultFloat_ok_iff_aux _ _ _, fun i hi hok => ?_,
    TestResultFloat_ndebug_aux _ _ _, diffFloat_val⟩
  exact hi ((TestResultFloat_ok_iff_aux _ _ _).1 hok i)

/-- Instance of amended C9 on the population of two of the counterexample: the exact result
`(0, 1)` passes, the result `(1e-5f, 1)` does not. -/
theorem TestResultFloat_succeeds_iff_witness :
    TestResultFloat false (dirToFloat ![1, 0, 0, 0])
        ![Particle.toFloat ⟨⟨0, 0, 0⟩, 1, 1⟩, Particle.toFloat ⟨⟨2, 0, 0⟩, 1, 1⟩]
        ![F32.ofRat 0, F32.ofRat 1]
      = Except.ok () ∧
    TestResultFloat false (dirToFloat ![1, 0, 0, 0])
        ![Particle.toFloat ⟨⟨0, 0, 0⟩, 1, 1⟩, Particle.toFloat ⟨⟨2, 0, 0⟩, 1, 1⟩]
        ![F32.ofRat (2748779 / 274877906944), F32.ofRat 1]
      ≠ Except.ok () := by
  constructor
  · apply (TestResultFloat_succeeds_iff _ _ _).1.2
    rw [Fin.forall_fin_two]
    constructor <;> decide!
  · exact (TestResultFloat_succeeds_iff _ _ _).2.1 0 (by decide!)

/-! ## The claims on exact values, evaluated in the code's arithmetic -/

/-- Counterexample to C14 as stated, direction `(1,0,0)`, receiver at the origin, caster
in front of it.
(1) Receiver of radius `13340845 / 2 ^ 24`, caster of radius `15987293 / 2 ^ 24` and
opacity 1, at lateral distance `d1 = 5465467 / 2 ^ 25` and at the larger lateral distance
`d2 = 5465551 / 2 ^ 25`: in `float` the falloff, and `Overlap`, is `8388345 / 2 ^ 23` at
`d1` and the larger `16776691 / 2 ^ 24` at `d2`.
(2) Receiver of radius 1, caster of radius `1e8` and opacity `1/2`: in `float` `Overlap` is
0 at lateral distance 0 and `1/2` at lateral distance `2e8`. -/
theorem Overlap_falloff_not_monotone_in_float :
    (Particle.isFloat ⟨⟨2, 5465467 / 33554432, 0⟩, 15987293 / 16777216, 1⟩ ∧
      Particle.isFloat ⟨⟨2, 5465551 / 33554432, 0⟩, 15987293 / 16777216, 1⟩ ∧
      Particle.isFloat ⟨⟨0, 0, 0⟩, 13340845 / 16777216, 1⟩ ∧
      lateralDistance sqrtQ ![(1 : ℚ), 0, 0, 0]
          ⟨⟨2, 5465467 / 33554432, 0⟩, 15987293 / 16777216, 1⟩
          ⟨⟨0, 0, 0⟩, 13340845 / 16777216, 1⟩ = 5465467 / 33554432 ∧
      lateralDistance sqrtQ ![(1 : ℚ), 0, 0, 0]
          ⟨⟨2, 5465551 / 33554432, 0⟩, 15987293 / 16777216, 1⟩
          ⟨⟨0, 0, 0⟩, 13340845 / 16777216, 1⟩ = 5465551 / 33554432 ∧
      (5465467 / 33554432 : ℚ) < 5465551 / 33554432 ∧
      SmoothstepFloat (F32.ofRat (13340845 / 16777216) + F32.ofRat (15987293 / 16777216))
          (F32.abs (F32.ofRat (13340845 / 16777216) - F32.ofRat (15987293 / 16777216)))
          (F32.ofRat (5465467 / 33554432)) = F32.ofRat (8388345 / 8388608) ∧
      SmoothstepFloat (F32.ofRat (13340845 / 16777216) + F32.ofRat (15987293 / 16777216))
          (F32.abs (F32.ofRat (13340845 / 16777216) - F32.ofRat (15987293 / 16777216)))
          (F32.ofRat (5465551 / 33554432)) = F32.ofRat (16776691 / 16777216) ∧
      OverlapFloat (dirToFloat ![1, 0, 0, 0])
          (Particle.toFloat ⟨⟨2, 5465467 / 33554432, 0⟩, 15987293 / 16777216, 1⟩)
          (Particle.toFloat ⟨⟨0, 0, 0⟩, 13340845 / 16777216, 1⟩)
        = F32.ofRat (8388345 / 8388608) ∧
      OverlapFloat (dirToFloat ![1, 0, 0, 0])
          (Particle.toFloat ⟨⟨2, 5465551 / 33554432, 0⟩, 15987293 / 16777216, 1⟩)
          (Particle.toFloat ⟨⟨0, 0, 0⟩, 13340845 / 16777216, 1⟩)
        = F32.ofRat (16776691 / 16777216) ∧
      isFloat (8388345 / 8388608) ∧ isFloat (16776691 / 16777216) ∧
      (8388345 / 8388608 : ℚ) < 16776691 / 16777216) ∧
    (Particle.isFloat ⟨⟨2, 0, 0⟩, 100000000, 1 / 2⟩ ∧
      Particle.isFloat ⟨⟨2, 200000000, 0⟩, 100000000, 1 / 2⟩ ∧
      lateralDistance sqrtQ ![(1 : ℚ), 0, 0, 0] ⟨⟨2, 0, 0⟩, 100000000, 1 / 2⟩
          ⟨⟨0, 0, 0⟩, 1, 1⟩ = 0 ∧
      lateralDistance sqrtQ ![(1 : ℚ), 0, 0, 0] ⟨⟨2, 200000000, 0⟩, 100000000, 1 / 2⟩
          ⟨⟨0, 0, 0⟩, 1, 1⟩ = 200000000 ∧
      OverlapFloat (dirToFloat ![1, 0, 0, 0])
          (Particle.toFloat ⟨⟨2, 0, 0⟩, 100000000, 1 / 2⟩)
          (Particle.toFloat ⟨⟨0, 0, 0⟩, 1, 1⟩) = F32.ofRat 0 ∧
      OverlapFloat (dirToFloat ![1, 0, 0, 0])
          (Particle.toFloat ⟨⟨2, 200000000, 0⟩, 100000000, 1 / 2⟩)
          (Particle.toFloat ⟨⟨0, 0, 0⟩, 1, 1⟩) = F32.ofRat (1 / 2)) ∧
    (unitDir ![(1 : ℚ), 0, 0, 0] ∧
      (0 : ℚ) < 13340845 / 16777216 ∧ (0 : ℚ) < 15987293 / 16777216 ∧
      (0 : ℚ) < 1 ∧ (0 : ℚ) < 100000000 ∧ (0 : ℚ) ≤ 1 ∧ (0 : ℚ) ≤ 1 / 2 ∧
      dot ![(1 : ℚ), 0, 0, 0] (⟨⟨0, 0, 0⟩, 13340845 / 16777216, 1⟩ : Particle ℚ).pos
        ≤ dot ![(1 : ℚ), 0, 0, 0]
            (⟨⟨2, 5465467 / 33554432, 0⟩, 15987293 / 16777216, 1⟩ : Particle ℚ).pos ∧
      dot ![(1 : ℚ), 0, 0, 0] (⟨⟨0, 0, 0⟩, 13340845 / 16777216, 1⟩ : Particle ℚ).pos
        ≤ dot ![(1 : ℚ), 0, 0, 0]
            (⟨⟨2, 5465551 / 33554432, 0⟩, 15987293 / 16777216, 1⟩ : Particle ℚ).pos ∧
      dot ![(1 : ℚ), 0, 0, 0] (⟨⟨0, 0, 0⟩, 1, 1⟩ : Particle ℚ).pos
        ≤ dot ![(1 : ℚ), 0, 0, 0] (⟨⟨2, 0, 0⟩, 100000000, 1 / 2⟩ : Particle ℚ).pos ∧
      dot ![(1 : ℚ), 0, 0, 0] (⟨⟨0, 0, 0⟩, 1, 1⟩ : Particle ℚ).pos
        ≤ dot ![(1 : ℚ), 0, 0, 0]
            (⟨⟨2, 200000000, 0⟩, 100000000, 1 / 2⟩ : Particle ℚ).pos) := by
  refine ⟨⟨by decide!, by decide!, by decide!, ?_, ?_, by norm_num, by decide!, by decide!,
    by decide!, by decide!, by decide!, by decide!, by norm_num⟩,
    ⟨by decide!, by decide!, ?_, ?_, by decide!, by decide!⟩,
    ⟨by norm_num [unitDir], by norm_num, by norm_num, by norm_num, by norm_num, by norm_num,
      by norm_num, by norm_num [dot], by norm_num [dot], by norm_num [dot],
      by norm_num [dot]⟩⟩
  · have hd : lateralDistance sqrtQ ![(1 : ℚ), 0, 0, 0]
        ⟨⟨2, 5465467 / 33554432, 0⟩, 15987293 / 16777216, 1⟩
        ⟨⟨0, 0, 0⟩, 13340845 / 16777216, 1⟩
        = sqrtQ (5465467 / 33554432 * (5465467 / 33554432)) := by
      norm_num [lateralDistance, perp, dot]
    rw [hd, sqrtQ_mul_self _ (by norm_num)]
  · have hd : lateralDistance sqrtQ ![(1 : ℚ), 0, 0, 0]
        ⟨⟨2, 5465551 / 33554432, 0⟩, 15987293 / 16777216, 1⟩
        ⟨⟨0, 0, 0⟩, 13340845 / 16777216, 1⟩
        = sqrtQ (5465551 / 33554432 * (5465551 / 33554432)) := by
      norm_num [lateralDistance, perp, dot]
    rw [hd, sqrtQ_mul_self _ (by norm_num)]
  · norm_num [lateralDistance, perp, dot, sqrtQ_zero]
  · have hd : lateralDistance sqrtQ ![(1 : ℚ), 0, 0, 0]
        ⟨⟨2, 200000000, 0⟩, 100000000, 1 / 2⟩ ⟨⟨0, 0, 0⟩, 1, 1⟩
        = sqrtQ (200000000 * 200000000) := by
      norm_num [lateralDistance, perp, dot]
    rw [hd, sqrtQ_mul_self _ (by norm_num)]

/-- The four inputs of `TestOverlapHost` in the code's arithmetic: `Overlap` returns
`0.125`, `0.5`, `0` and `0.25`, the values the assertions of the test expect (the receiver
radius `0.9f` is `7549747 / 2 ^ 23`). -/
theorem TestOverlapHost_in_float :
    OverlapFloat (dirToFloat ![1, 0, 0, 0]) (Particle.toFloat ⟨⟨2, 0, 0⟩, 1 / 2, 1 / 2⟩)
        (Particle.toFloat ⟨⟨0, 0, 0⟩, 1, 1⟩) = F32.ofRat (1 / 8) ∧
    OverlapFloat (dirToFloat ![1, 0, 0, 0]) (Particle.toFloat ⟨⟨2, 0, 0⟩, 1, 1 / 2⟩)
        (Particle.toFloat ⟨⟨0, 0, 0⟩, 7549747 / 8388608, 1⟩) = F32.ofRat (1 / 2) ∧
    OverlapFloat (dirToFloat ![0, 1, 0, 0]) (Particle.toFloat ⟨⟨2, 0, 0⟩, 1 / 2, 1 / 2⟩)
        (Particle.toFloat ⟨⟨0, 0, 0⟩, 1, 1⟩) = F32.ofRat 0 ∧
    OverlapFloat (dirToFloat ![1, 0, 0, 0]) (Particle.toFloat ⟨⟨2, 1, 0⟩, 1, 1 / 2⟩)
        (Particle.toFloat ⟨⟨0, 0, 0⟩, 1, 1⟩) = F32.ofRat (1 / 4) := by
  refine ⟨by decide!, by decide!, by decide!, by decide!⟩

/-- A caster of radius 0 at or beyond the outer boundary, in the code's arithmetic: the
falloff divides by zero, the area ratio is 0 and `Overlap` returns 0 (receiver of radius 1
at the origin, caster of opacity `1/2` at lateral distance 1 and 2). -/
theorem Overlap_outer_boundary_zero_radius_in_float :
    OverlapFloat (dirToFloat ![1, 0, 0, 0]) (Particle.toFloat ⟨⟨2, 1, 0⟩, 0, 1 / 2⟩)
        (Particle.toFloat ⟨⟨0, 0, 0⟩, 1, 1⟩) = F32.ofRat 0 ∧
    OverlapFloat (dirToFloat ![1, 0, 0, 0]) (Particle.toFloat ⟨⟨2, 2, 0⟩, 0, 1 / 2⟩)
        (Particle.toFloat ⟨⟨0, 0, 0⟩, 1, 1⟩) = F32.ofRat 0 := by
  refine ⟨by decide!, by decide!⟩

/-- The failed assertion of `TestResult` in the code's arithmetic: when the comparison
`abs(result[i] - expected[i]) < diff` fails at some index, a build with assertions enabled
ends in the same abort, which carries the text of the asserted expression only. -/
theorem TestResultFloat_mismatch_aborts {n : Nat} (sunDir : Fin 4 → F32)
    (particlesArr : Fin n → Particle F32) (result : Fin n → F32)
    (h : ∃ i, ¬ F32.abs (result i - expectedFloat sunDir particlesArr i) < diffFloat) :
    TestResultFloat false sunDir particlesArr result
      = Except.error "abs(result[i] - expected[i]) < diff" := by
  obtain ⟨i, hi⟩ := h
  exact TestResultFloat_error_aux sunDir particlesArr result i hi

end DirectCompute
